import Mathlib

/- Formal model of the sharp-sniper betting engine core: configuration
   thresholds (src/config.py), the rating engine (src/ratings.py), the edge
   calculator (src/engine/edge.py) and the pick tracker (src/tracking.py).

   Python floats are idealised as rationals throughout; the logistic
   spread-to-probability conversion, whose values are irrational, is carried
   out in the reals.  Python's built-in round(x, n) rounds half to even,
   which roundHalfToEven mirrors. -/

/-- Python's round-half-to-even of a rational number, as an integer. -/
def roundHalfToEven (q : ℚ) : ℤ :=
  if q - ⌊q⌋ = 1/2 then (if 2 ∣ ⌊q⌋ then ⌊q⌋ else ⌊q⌋ + 1) else round q

/-- Python's round(q, n) for a rational q and n decimal digits. -/
def pyRound (n : ℕ) (q : ℚ) : ℚ :=
  (roundHalfToEven (q * 10 ^ n) : ℚ) / 10 ^ n

open Classical in
/-- Python's round-half-to-even over the reals (used for EV percentages,
which involve the irrational logistic conversion). -/
noncomputable def roundHalfToEvenR (x : ℝ) : ℤ :=
  if x - ⌊x⌋ = 1/2 then (if 2 ∣ ⌊x⌋ then ⌊x⌋ else ⌊x⌋ + 1) else round x

/-- Python's round(x, n) over the reals. -/
noncomputable def pyRoundR (n : ℕ) (x : ℝ) : ℝ :=
  (roundHalfToEvenR (x * 10 ^ n) : ℝ) / 10 ^ n

theorem roundHalfToEven_intCast (m : ℤ) : roundHalfToEven (m : ℚ) = m := by
  unfold roundHalfToEven
  rw [Int.floor_intCast]
  have h1 : (m : ℚ) - m = 0 := by ring
  rw [h1]
  norm_num

theorem pyRound_eq_self {n : ℕ} {q : ℚ} (m : ℤ) (h : q * 10 ^ n = (m : ℚ)) :
    pyRound n q = q := by
  unfold pyRound
  rw [h, roundHalfToEven_intCast, ← h]
  field_simp

theorem roundHalfToEvenR_intCast (m : ℤ) : roundHalfToEvenR (m : ℝ) = m := by
  unfold roundHalfToEvenR
  rw [Int.floor_intCast]
  have h1 : (m : ℝ) - m = 0 := by ring
  rw [h1]
  norm_num

theorem pyRoundR_eq_self {n : ℕ} {x : ℝ} (m : ℤ) (h : x * 10 ^ n = (m : ℝ)) :
    pyRoundR n x = x := by
  unfold pyRoundR
  rw [h, roundHalfToEvenR_intCast, ← h]
  field_simp

theorem roundHalfToEven_le {q : ℚ} {c : ℤ} (h : q ≤ (c : ℚ)) :
    roundHalfToEven q ≤ c := by
  unfold roundHalfToEven
  split
  · rename_i htie
    have hfl : (⌊q⌋ : ℚ) = q - 1/2 := by linarith
    have hlt : (⌊q⌋ : ℚ) < (c : ℚ) := by linarith
    have hlt' : ⌊q⌋ < c := by exact_mod_cast hlt
    split
    · omega
    · omega
  · rw [round_eq]
    have hmono : ⌊q + 1/2⌋ ≤ ⌊(c : ℚ) + 1/2⌋ := Int.floor_le_floor (by linarith)
    have hc : ⌊(c : ℚ) + 1/2⌋ = c := by
      have : (c : ℚ) + 1/2 = 1/2 + (c : ℤ) := by ring
      rw [this, Int.floor_add_int]
      norm_num
    omega

theorem le_roundHalfToEven {q : ℚ} {c : ℤ} (h : (c : ℚ) ≤ q) :
    c ≤ roundHalfToEven q := by
  have hfl : c ≤ ⌊q⌋ := Int.le_floor.mpr h
  unfold roundHalfToEven
  split
  · split
    · omega
    · omega
  · rw [round_eq]
    have : ⌊q⌋ ≤ ⌊q + 1/2⌋ := Int.floor_le_floor (by linarith)
    omega

theorem abs_pyRound_one_le_ten {q : ℚ} (h : |q| ≤ 10) : |pyRound 1 q| ≤ 10 := by
  rw [abs_le] at h ⊢
  have h1 : q * 10 ^ 1 ≤ ((100 : ℤ) : ℚ) := by norm_num; nlinarith [h.2]
  have h2 : ((-100 : ℤ) : ℚ) ≤ q * 10 ^ 1 := by push_cast; nlinarith [h.1]
  have hu := roundHalfToEven_le h1
  have hl := le_roundHalfToEven h2
  unfold pyRound
  constructor
  · rw [le_div_iff₀ (by norm_num : (0:ℚ) < 10 ^ 1)]
    have : ((-100 : ℤ) : ℚ) ≤ ((roundHalfToEven (q * 10 ^ 1) : ℚ)) := by exact_mod_cast hl
    push_cast at this ⊢
    linarith
  · rw [div_le_iff₀ (by norm_num : (0:ℚ) < 10 ^ 1)]
    have : ((roundHalfToEven (q * 10 ^ 1) : ℚ)) ≤ ((100 : ℤ) : ℚ) := by exact_mod_cast hu
    push_cast at this ⊢
    linarith

theorem le_roundHalfToEvenR {x : ℝ} {c : ℤ} (h : (c : ℝ) ≤ x) :
    c ≤ roundHalfToEvenR x := by
  have hfl : c ≤ ⌊x⌋ := Int.le_floor.mpr h
  unfold roundHalfToEvenR
  split
  · split
    · omega
    · omega
  · rw [round_eq]
    have : ⌊x⌋ ≤ ⌊x + 1/2⌋ := Int.floor_le_floor (by linarith)
    omega

theorem pyRoundR_nonneg {n : ℕ} {x : ℝ} (h : 0 ≤ x) : 0 ≤ pyRoundR n x := by
  unfold pyRoundR
  apply div_nonneg _ (by positivity)
  have hx : ((0 : ℤ) : ℝ) ≤ x * 10 ^ n := by
    push_cast
    exact mul_nonneg h (by positivity)
  have := le_roundHalfToEvenR hx
  exact_mod_cast this

/- ──────────────────────────────────────────────────────────────
   src/config.py — weight tables, thresholds, confidence tiers
   ────────────────────────────────────────────────────────────── -/

/-- Per-sport time-window weights (config.RatingWeights). -/
structure RatingWeights where
  season : ℚ
  last_15 : ℚ
  last_5 : ℚ
  last_1 : ℚ

/-- The source names this field last_game; we keep last_1 to dodge no
meaning change. -/
def RatingWeights.last_game (w : RatingWeights) : ℚ := w.last_1

/-- RatingWeights.validate: the assertion that the weights sum to 1 ± 0.001. -/
def RatingWeights.valid (w : RatingWeights) : Prop :=
  |w.season + w.last_15 + w.last_5 + w.last_1 - 1| < 0.001

def NBA_WEIGHTS : RatingWeights := ⟨0.55, 0.25, 0.15, 0.05⟩

def NCAAB_WEIGHTS : RatingWeights := ⟨0.60, 0.22, 0.13, 0.05⟩

/-- HOME_COURT dictionary with the source's .get(sport, 2.5) default. -/
def HOME_COURT (sport : String) : ℚ :=
  if sport = "nba" then 2.5 else if sport = "ncaab" then 3.3 else 2.5

/-- config.EdgeThresholds. -/
structure EdgeThresholds where
  min_edge_points : ℚ
  strong_edge_points : ℚ
  min_ev_pct : ℚ
  max_plays_per_day : ℕ

def NBA_THRESHOLDS : EdgeThresholds := ⟨1.5, 3.0, 3.0, 5⟩

def NCAAB_THRESHOLDS : EdgeThresholds := ⟨2.0, 4.0, 3.0, 5⟩

/-- config.get_confidence_tier: maps edge size to a tier label. -/
def get_confidence_tier (edge_points : ℚ) (sport : String) : String :=
  let thresholds := if sport = "nba" then NBA_THRESHOLDS else NCAAB_THRESHOLDS
  if edge_points ≥ thresholds.strong_edge_points * 1.5 then "🔥 HIGH"
  else if edge_points ≥ thresholds.strong_edge_points then "✅ STRONG"
  else if edge_points ≥ thresholds.min_edge_points then "⚡ MODERATE"
  else "⚪ LOW"

/- ──────────────────────────────────────────────────────────────
   src/ratings.py — time-weighted power ratings
   ────────────────────────────────────────────────────────────── -/

/-- One time window's metrics (data/nba_stats.TeamMetrics).  Only the fields
the rating engine reads are modelled; the remaining shooting-split and
identity fields are payload the engine never touches. -/
structure TeamMetrics where
  off_rating : ℚ
  def_rating : ℚ
  net_rating : ℚ
  pace : ℚ
  record : String

/-- data/nba_stats.TeamProfile: the four optional windows for one team. -/
structure TeamProfile where
  team_name : String
  team_abbr : String
  season : Option TeamMetrics
  last_15 : Option TeamMetrics
  last_5 : Option TeamMetrics
  last_1 : Option TeamMetrics

/-- ratings.PowerRating. -/
structure PowerRating where
  team_name : String
  team_abbr : String
  sport : String
  season_net : ℚ
  last_15_net : ℚ
  last_5_net : ℚ
  last_1_net : ℚ
  weighted_net : ℚ
  weighted_off : ℚ
  weighted_def : ℚ
  weighted_pace : ℚ
  trending_up : Bool
  hot_streak : Bool
  cooling_off : Bool
  regime_shift : ℚ
  season_record : String
  recent_record : String

/-- PowerRating.trend_label property. -/
def PowerRating.trend_label (r : PowerRating) : String :=
  if r.hot_streak then "🔥 HOT"
  else if r.trending_up then "📈 TRENDING UP"
  else if r.cooling_off then "📉 COOLING"
  else "➡️ STABLE"

/-- The loop body of RatingEngine.compute_nba_ratings for a single team:
teams whose season window is absent are skipped (`if not s: continue`);
each narrower window falls back to the next-broadest present one. -/
def compute_nba_rating (w : RatingWeights) (abbr : String) (prof : TeamProfile) :
    Option PowerRating :=
  match prof.season with
  | Option.none => Option.none
  | Option.some s =>
    let s_net := s.net_rating
    let l15_net := match prof.last_15 with | Option.some m => m.net_rating | Option.none => s_net
    let l5_net := match prof.last_5 with | Option.some m => m.net_rating | Option.none => l15_net
    let l1_net := match prof.last_1 with | Option.some m => m.net_rating | Option.none => l5_net
    let s_off := s.off_rating
    let l15_off := match prof.last_15 with | Option.some m => m.off_rating | Option.none => s_off
    let l5_off := match prof.last_5 with | Option.some m => m.off_rating | Option.none => l15_off
    let l1_off := match prof.last_1 with | Option.some m => m.off_rating | Option.none => l5_off
    let s_def := s.def_rating
    let l15_def := match prof.last_15 with | Option.some m => m.def_rating | Option.none => s_def
    let l5_def := match prof.last_5 with | Option.some m => m.def_rating | Option.none => l15_def
    let l1_def := match prof.last_1 with | Option.some m => m.def_rating | Option.none => l5_def
    let s_pace := s.pace
    let l15_pace := match prof.last_15 with | Option.some m => m.pace | Option.none => s_pace
    let l5_pace := match prof.last_5 with | Option.some m => m.pace | Option.none => l15_pace
    let l1_pace := match prof.last_1 with | Option.some m => m.pace | Option.none => l5_pace
    let weighted_net := w.season * s_net + w.last_15 * l15_net + w.last_5 * l5_net + w.last_1 * l1_net
    let weighted_off := w.season * s_off + w.last_15 * l15_off + w.last_5 * l5_off + w.last_1 * l1_off
    let weighted_def := w.season * s_def + w.last_15 * l15_def + w.last_5 * l5_def + w.last_1 * l1_def
    let weighted_pace := w.season * s_pace + w.last_15 * l15_pace + w.last_5 * l5_pace + w.last_1 * l1_pace
    Option.some
      { team_name := prof.team_name
        team_abbr := abbr
        sport := "nba"
        season_net := pyRound 2 s_net
        last_15_net := pyRound 2 l15_net
        last_5_net := pyRound 2 l5_net
        last_1_net := pyRound 2 l1_net
        weighted_net := pyRound 2 weighted_net
        weighted_off := pyRound 2 weighted_off
        weighted_def := pyRound 2 weighted_def
        weighted_pace := pyRound 2 weighted_pace
        trending_up := decide (s_net < l15_net)
        hot_streak := decide (l15_net < l5_net ∧ s_net < l15_net)
        cooling_off := decide (l5_net < l15_net ∧ l15_net < s_net)
        regime_shift := pyRound 2 (l15_net - s_net)
        season_record := s.record
        recent_record := match prof.last_15 with | Option.some m => m.record | Option.none => "" }

/-- RatingEngine.compute_nba_ratings over a (key, profile) association list
standing for the Python dict of profiles. -/
def compute_nba_ratings (w : RatingWeights) (profiles : List (String × TeamProfile)) :
    List (String × PowerRating) :=
  profiles.filterMap (fun p => (compute_nba_rating w p.1 p.2).map (fun r => (p.1, r)))

/-- RatingEngine.compute_model_spread: rating difference, home court to the
home side, plus caller-supplied injury and rest adjustments; positive
favours team A. -/
def compute_model_spread (team_a_rating team_b_rating : PowerRating)
    (home_team : String) (injury_adj rest_adj : ℚ) : ℚ :=
  let hca := HOME_COURT team_a_rating.sport
  let raw0 := team_a_rating.weighted_net - team_b_rating.weighted_net
  let raw1 :=
    if home_team.toUpper = team_a_rating.team_abbr.toUpper then raw0 + hca
    else if home_team.toUpper = team_b_rating.team_abbr.toUpper then raw0 - hca
    else raw0
  pyRound 1 (raw1 + injury_adj + rest_adj)

/- ──────────────────────────────────────────────────────────────
   src/engine/edge.py — the edge calculator
   ────────────────────────────────────────────────────────────── -/

def MAX_EDGE_POINTS : ℚ := 10.0

def MAX_SPREAD_ABS : ℚ := 30.0

def MAX_TOTAL : ℚ := 300.0

def MIN_TOTAL : ℚ := 150.0

def MAX_INJURY_IMPACT : ℚ := 12.0

/-- A Python float argument that may also be None or NaN; the NaN and None
cases are what EdgeCalculator._validate_inputs screens out first. -/
inductive PyFloat where
  | null : PyFloat
  | nan : PyFloat
  | num (q : ℚ) : PyFloat

def PyFloat.isNanOrNull : PyFloat → Bool
  | PyFloat.null => true
  | PyFloat.nan => true
  | PyFloat.num _ => false

/-- Numeric value of a PyFloat.  Only consulted on code paths where
validation has already ruled out the None and NaN constructors. -/
def PyFloat.val : PyFloat → ℚ
  | PyFloat.num q => q
  | _ => 0

/-- edge.EdgeResult.  Point-valued fields are rationals; the two
probability-derived fields are reals because the logistic conversion is
irrational. -/
structure EdgeResult where
  away_team : String
  home_team : String
  sport : String
  away_rating : ℚ
  home_rating : ℚ
  away_trend : String
  home_trend : String
  model_spread_home : ℚ
  model_total : ℚ
  market_spread_home : ℚ
  market_total : ℚ
  home_implied_prob : ℚ
  spread_edge : ℚ
  total_edge : ℚ
  model_win_prob_home : ℝ
  ev_pct : ℝ
  injury_impact : ℚ
  injury_summary_away : String
  injury_summary_home : String
  confidence : String
  play_side : String
  is_playable : Bool
  away_regime_shift : ℚ
  home_regime_shift : ℚ

/-- EdgeResult.edge_abs property. -/
def EdgeResult.edge_abs (e : EdgeResult) : ℚ := |e.spread_edge|

/-- EdgeCalculator.__init__'s threshold selection by sport. -/
def thresholds_for (sport : String) : EdgeThresholds :=
  if sport = "nba" then NBA_THRESHOLDS else NCAAB_THRESHOLDS

/-- EdgeCalculator._spread_to_win_prob: logistic conversion with k = 8.0
for the NBA and k = 9.5 for NCAAB. -/
noncomputable def spread_to_win_prob (sport : String) (spread : ℚ) : ℝ :=
  let k : ℝ := if sport = "nba" then 8.0 else 9.5
  1 / (1 + (10 : ℝ) ^ ((spread : ℝ) / k))

open Classical in
/-- EdgeCalculator._compute_ev. -/
noncomputable def compute_ev (model_prob market_prob : ℝ) : ℝ :=
  if market_prob ≤ 0 then 0 else pyRoundR 2 ((model_prob / market_prob - 1) * 100)

/-- EdgeCalculator._validate_inputs, in the source's check order. -/
def validate_inputs (model_spread model_total market_spread market_total : PyFloat)
    (implied_prob injury_impact : ℚ) (away_rating home_rating : PowerRating) :
    Option String :=
  if model_spread.isNanOrNull then Option.some "model_spread is NaN/None"
  else if market_spread.isNanOrNull then Option.some "market_spread is NaN/None"
  else if model_total.isNanOrNull then Option.some "model_total is NaN/None"
  else if market_total.isNanOrNull then Option.some "market_total is NaN/None"
  else if |model_spread.val| > MAX_SPREAD_ABS then
    Option.some ("Model spread " ++ toString model_spread.val ++ " exceeds ±" ++ toString MAX_SPREAD_ABS)
  else if |market_spread.val| > MAX_SPREAD_ABS then
    Option.some ("Market spread " ++ toString market_spread.val ++ " exceeds ±" ++ toString MAX_SPREAD_ABS)
  else if model_total.val > 0 ∧ (model_total.val > MAX_TOTAL ∨ model_total.val < MIN_TOTAL) then
    Option.some ("Model total " ++ toString model_total.val ++ " outside range [" ++ toString MIN_TOTAL ++ ", " ++ toString MAX_TOTAL ++ "]")
  else if implied_prob < 0.01 ∨ implied_prob > 0.99 then
    Option.some ("Implied prob " ++ toString implied_prob ++ " outside [0.01, 0.99]")
  else if |injury_impact| > MAX_INJURY_IMPACT then
    Option.some ("Injury impact " ++ toString injury_impact ++ " exceeds ±" ++ toString MAX_INJURY_IMPACT)
  else if |away_rating.weighted_net| > 25 ∨ |home_rating.weighted_net| > 25 then
    Option.some "Weighted net rating outside ±25 range"
  else Option.none

/-- EdgeCalculator._quarantined_result: the safe PASS record returned for
bad inputs, with the reason carried in injury_summary_home. -/
noncomputable def quarantined_result (sport : String)
    (away_rating home_rating : PowerRating) (reason : String) : EdgeResult :=
  { away_team := away_rating.team_abbr
    home_team := home_rating.team_abbr
    sport := sport
    away_rating := away_rating.weighted_net
    home_rating := home_rating.weighted_net
    away_trend := away_rating.trend_label
    home_trend := home_rating.trend_label
    model_spread_home := 0
    model_total := 0
    market_spread_home := 0
    market_total := 0
    home_implied_prob := 0.5
    spread_edge := 0
    total_edge := 0
    model_win_prob_home := 0.5
    ev_pct := 0
    injury_impact := 0
    injury_summary_away := "QUARANTINED"
    injury_summary_home := reason
    confidence := "⚪ LOW"
    play_side := "NO PLAY"
    is_playable := false
    away_regime_shift := 0
    home_regime_shift := 0 }

/-- EdgeCalculator.compute_edge: validation first, then the 10-point
anomaly guard, then edge, EV, play side, playability and tier. -/
noncomputable def compute_edge (sport : String)
    (away_rating home_rating : PowerRating)
    (model_spread_home model_total market_spread_home market_total : PyFloat)
    (home_implied_prob injury_impact : ℚ)
    (injury_summary_away injury_summary_home : String) : EdgeResult :=
  match validate_inputs model_spread_home model_total market_spread_home market_total
      home_implied_prob injury_impact away_rating home_rating with
  | Option.some validation_error =>
    quarantined_result sport away_rating home_rating validation_error
  | Option.none =>
    let spread_edge := model_spread_home.val - market_spread_home.val
    if |spread_edge| > MAX_EDGE_POINTS then
      quarantined_result sport away_rating home_rating
        ("Edge " ++ toString spread_edge ++ " exceeds cap (" ++ toString MAX_EDGE_POINTS ++ "). Likely data error.")
    else
      let total_edge := model_total.val - market_total.val
      let model_win_prob_home := spread_to_win_prob sport model_spread_home.val
      let market_win_prob_home : ℚ := max home_implied_prob 0.01
      let ev_pct :=
        if spread_edge < 0 then
          compute_ev model_win_prob_home (market_win_prob_home : ℝ)
        else
          compute_ev (1 - model_win_prob_home) (1 - (market_win_prob_home : ℝ))
      let edge_abs := |spread_edge|
      let is_playable : Bool := decide (edge_abs ≥ (thresholds_for sport).min_edge_points)
      let play_side :=
        if !is_playable then "NO PLAY"
        else if spread_edge < 0 then "HOME"
        else "AWAY"
      let confidence := get_confidence_tier edge_abs sport
      { away_team := away_rating.team_abbr
        home_team := home_rating.team_abbr
        sport := sport
        away_rating := away_rating.weighted_net
        home_rating := home_rating.weighted_net
        away_trend := away_rating.trend_label
        home_trend := home_rating.trend_label
        model_spread_home := model_spread_home.val
        model_total := model_total.val
        market_spread_home := market_spread_home.val
        market_total := market_total.val
        home_implied_prob := home_implied_prob
        spread_edge := pyRound 1 spread_edge
        total_edge := pyRound 1 total_edge
        model_win_prob_home := pyRoundR 3 model_win_prob_home
        ev_pct := ev_pct
        injury_impact := injury_impact
        injury_summary_away := injury_summary_away
        injury_summary_home := injury_summary_home
        confidence := confidence
        play_side := play_side
        is_playable := is_playable
        away_regime_shift := away_rating.regime_shift
        home_regime_shift := home_rating.regime_shift }

/-- edge.rank_edges: filter to playable, stable sort descending by absolute
edge (Python's list.sort is stable and reverse=True keeps ties in input
order), truncate to max_plays. -/
def rank_edges (edges : List EdgeResult) (max_plays : ℕ) : List EdgeResult :=
  let playable := edges.filter (fun e => e.is_playable)
  (playable.mergeSort (fun a b => decide (b.edge_abs ≤ a.edge_abs))).take max_plays

/- ──────────────────────────────────────────────────────────────
   src/tracking.py — the pick ledger
   ────────────────────────────────────────────────────────────── -/

/-- One row of the picks table (tracking.PickRecord / the SQLite schema).
closing_line is NULL until the pick is graded; timestamps are modelled as
naturals ordered like the ISO strings the source stores. -/
structure PickRow where
  id : ℕ
  timestamp : ℕ
  sport : String
  away_team : String
  home_team : String
  play_side : String
  bet_type : String
  line_taken : ℚ
  odds_taken : ℤ
  closing_line : Option ℚ
  model_spread : ℚ
  market_spread : ℚ
  edge_points : ℚ
  confidence : String
  units : ℚ
  result : String
  profit_units : ℚ
  clv : ℚ
  notes : String

/-- PickTracker.log_pick: append a row with the schema defaults
(result pending, closing line NULL, profit and clv 0); the autoincrement
id of an append-only table is one past the current length. -/
def log_pick (db : List PickRow) (timestamp : ℕ)
    (sport away_team home_team play_side bet_type : String)
    (line_taken : ℚ) (odds_taken : ℤ) (model_spread market_spread edge_points : ℚ)
    (confidence : String) (units : ℚ) (notes : String) : List PickRow × ℕ :=
  let pick_id := db.length + 1
  (db ++ [{ id := pick_id
            timestamp := timestamp
            sport := sport
            away_team := away_team
            home_team := home_team
            play_side := play_side
            bet_type := bet_type
            line_taken := line_taken
            odds_taken := odds_taken
            closing_line := Option.none
            model_spread := model_spread
            market_spread := market_spread
            edge_points := edge_points
            confidence := confidence
            units := units
            result := "pending"
            profit_units := 0
            clv := 0
            notes := notes }], pick_id)

/-- The profit and CLV that PickTracker.update_result computes from the
fetched row: clv = closing_line − line_taken; profit from American odds.
Grading with odds_taken = 0 would raise ZeroDivisionError in the source;
here 100 / 0 is Lean's total division (no claim exercises that case). -/
def grade_values (row : PickRow) (closing_line : ℚ) (result : String) : ℚ × ℚ :=
  let clv := closing_line - row.line_taken
  let profit :=
    if result = "win" then
      (if row.odds_taken > 0 then row.units * ((row.odds_taken : ℚ) / 100)
       else row.units * (100 / |(row.odds_taken : ℚ)|))
    else if result = "loss" then -row.units
    else 0
  (pyRound 2 profit, pyRound 2 clv)

/-- PickTracker.update_result: fetch the row by id (no-op when absent, as
in the source), compute profit and CLV from it, then write closing_line,
result, profit_units and clv back to the row with that id. -/
def update_result (db : List PickRow) (pick_id : ℕ) (closing_line : ℚ)
    (result : String) : List PickRow :=
  match db.find? (fun r => r.id == pick_id) with
  | Option.none => db
  | Option.some row =>
    let pv := grade_values row closing_line result
    db.map (fun r =>
      if r.id = pick_id then
        { r with closing_line := Option.some closing_line
                 result := result
                 profit_units := pv.1
                 clv := pv.2 }
      else r)

/-- Per-tier accumulator of get_performance_report's by_confidence dict. -/
structure TierStats where
  picks : ℕ
  wins : ℕ
  profit : ℚ

/-- One step of the by_confidence accumulation (dict keyed by tier,
insertion-ordered, as Python dicts are). -/
def tier_fold (acc : List (String × TierStats)) (p : PickRow) :
    List (String × TierStats) :=
  if acc.any (fun t => t.1 == p.confidence) then
    acc.map (fun t =>
      if t.1 = p.confidence then
        (t.1, { picks := t.2.picks + 1
                wins := t.2.wins + (if p.result = "win" then 1 else 0)
                profit := t.2.profit + p.profit_units })
      else t)
  else
    acc ++ [(p.confidence,
             { picks := 1
               wins := if p.result = "win" then 1 else 0
               profit := p.profit_units })]

/-- The reverse-chronological walk computing the current streak: skip
pushes, count while the result type stays the same, stop when it changes. -/
def streak_walk : List PickRow → ℕ → String → ℕ × String
  | [], streak, streak_type => (streak, streak_type)
  | p :: rest, streak, streak_type =>
    if p.result = "push" then streak_walk rest streak streak_type
    else if streak_type = "" then streak_walk rest 1 p.result
    else if p.result = streak_type then streak_walk rest (streak + 1) streak_type
    else (streak, streak_type)

/-- The streak field of the report. -/
def streak_of (picks : List PickRow) : String :=
  let r := streak_walk picks.reverse 0 ""
  if r.1 > 0 then toString r.1 ++ (if r.2 = "win" then "W" else "L") else "0"

/-- The WHERE clause of get_performance_report: graded rows only,
optionally restricted to a sport and to timestamps after a cutoff (the
source derives the cutoff from `days`; it is passed explicitly here). -/
def matches_filter (sport : Option String) (cutoff : Option ℕ) (r : PickRow) : Bool :=
  (r.result != "pending")
    && (match sport with | Option.some s => r.sport == s | Option.none => true)
    && (match cutoff with | Option.some c => decide (c < r.timestamp) | Option.none => true)

/-- The numeric fields of PickTracker.get_performance_report. -/
structure PerformanceReport where
  total_picks : ℕ
  wins : ℕ
  losses : ℕ
  pushes : ℕ
  win_rate : ℚ
  units_wagered : ℚ
  units_profit : ℚ
  roi_pct : ℚ
  avg_clv : ℚ
  clv_positive_rate : ℚ
  by_confidence : List (String × TierStats)
  streak : String

/-- PickTracker.get_performance_report.  Returns none for the source's
early "no graded picks yet" dictionary.  Rows are ordered by timestamp as
in the source's ORDER BY (a stable sort; aggregates are order-independent). -/
def get_performance_report (db : List PickRow) (sport : Option String)
    (cutoff : Option ℕ) : Option PerformanceReport :=
  let picks := (db.filter (matches_filter sport cutoff)).mergeSort
    (fun a b => decide (a.timestamp ≤ b.timestamp))
  if picks.isEmpty then Option.none
  else
    let wins := picks.countP (fun p => p.result == "win")
    let losses := picks.countP (fun p => p.result == "loss")
    let pushes := picks.countP (fun p => p.result == "push")
    let total := wins + losses + pushes
    let units_wagered := (picks.map (fun p => p.units)).sum
    let units_profit := (picks.map (fun p => p.profit_units)).sum
    let roi_pct := if units_wagered > 0 then units_profit / units_wagered * 100 else 0
    let clv_values := (picks.filter (fun p => p.clv != 0)).map (fun p => p.clv)
    let avg_clv := if clv_values.isEmpty then 0 else clv_values.sum / (clv_values.length : ℚ)
    let clv_positive := (clv_values.filter (fun c => decide (0 < c))).length
    let clv_rate := if clv_values.isEmpty then 0 else (clv_positive : ℚ) / (clv_values.length : ℚ) * 100
    Option.some
      { total_picks := total
        wins := wins
        losses := losses
        pushes := pushes
        win_rate := if wins + losses > 0 then pyRound 1 ((wins : ℚ) / ((wins : ℚ) + (losses : ℚ)) * 100) else 0
        units_wagered := pyRound 1 units_wagered
        units_profit := pyRound 2 units_profit
        roi_pct := pyRound 2 roi_pct
        avg_clv := pyRound 2 avg_clv
        clv_positive_rate := pyRound 1 clv_rate
        by_confidence := picks.foldl tier_fold []
        streak := streak_of picks }

/- ──────────────────────────────────────────────────────────────
   Concrete sample inputs used by witnesses
   ────────────────────────────────────────────────────────────── -/

/-- A PowerRating with the given composite net rating and innocuous
values elsewhere, as produced for a healthy mid-table team. -/
def sample_rating (abbr : String) (net : ℚ) : PowerRating :=
  { team_name := abbr, team_abbr := abbr, sport := "nba"
    season_net := net, last_15_net := net, last_5_net := net, last_1_net := net
    weighted_net := net, weighted_off := 110, weighted_def := 110, weighted_pace := 100
    trending_up := false, hot_streak := false, cooling_off := false
    regime_shift := 0, season_record := "", recent_record := "" }

/-- A freshly logged, still pending pick row. -/
def sample_pick (pid ts : ℕ) (line : ℚ) : PickRow :=
  { id := pid, timestamp := ts, sport := "nba", away_team := "LAL", home_team := "SAS"
    play_side := "HOME", bet_type := "spread", line_taken := line, odds_taken := -110
    closing_line := Option.none, model_spread := -6.5, market_spread := -4.0
    edge_points := 2.5, confidence := "✅ STRONG", units := 1, result := "pending"
    profit_units := 0, clv := 0, notes := "" }

/-- Window metrics with the given net rating and bland companions. -/
def sample_metrics (net : ℚ) : TeamMetrics :=
  { off_rating := 115, def_rating := 110, net_rating := net, pace := 100, record := "10-5" }

/-- A profile with season and last-15 windows but no last-5 or last-1
window, exercising the two-step fallback. -/
def sample_profile_no_last1 : TeamProfile :=
  { team_name := "Spurs", team_abbr := "SAS"
    season := Option.some (sample_metrics 5)
    last_15 := Option.some (sample_metrics 7)
    last_5 := Option.none
    last_1 := Option.none }

/-- A profile with no season window at all: the engine cannot rate it. -/
def sample_profile_no_season : TeamProfile :=
  { team_name := "Lakers", team_abbr := "LAL"
    season := Option.none
    last_15 := Option.some (sample_metrics 3)
    last_5 := Option.some (sample_metrics 2)
    last_1 := Option.none }

/- ──────────────────────────────────────────────────────────────
   Helper lemmas about the embedded functions
   ────────────────────────────────────────────────────────────── -/

theorem compute_edge_of_some (sport : String) (ar hr : PowerRating)
    (msp mt mksp mkt : PyFloat) (ip inj : ℚ) (sa sh err : String)
    (hv : validate_inputs msp mt mksp mkt ip inj ar hr = Option.some err) :
    compute_edge sport ar hr msp mt mksp mkt ip inj sa sh =
      quarantined_result sport ar hr err := by
  unfold compute_edge
  rw [hv]

theorem compute_edge_of_anomaly (sport : String) (ar hr : PowerRating)
    (msp mt mksp mkt : PyFloat) (ip inj : ℚ) (sa sh : String)
    (hv : validate_inputs msp mt mksp mkt ip inj ar hr = Option.none)
    (hcap : |msp.val - mksp.val| > MAX_EDGE_POINTS) :
    compute_edge sport ar hr msp mt mksp mkt ip inj sa sh =
      quarantined_result sport ar hr
        ("Edge " ++ toString (msp.val - mksp.val) ++ " exceeds cap (" ++ toString MAX_EDGE_POINTS ++ "). Likely data error.") := by
  unfold compute_edge
  rw [hv]
  dsimp only
  rw [if_pos hcap]

theorem compute_edge_main (sport : String) (ar hr : PowerRating)
    (msp mt mksp mkt : PyFloat) (ip inj : ℚ) (sa sh : String)
    (hv : validate_inputs msp mt mksp mkt ip inj ar hr = Option.none)
    (hcap : |msp.val - mksp.val| ≤ MAX_EDGE_POINTS) :
    compute_edge sport ar hr msp mt mksp mkt ip inj sa sh =
      { away_team := ar.team_abbr
        home_team := hr.team_abbr
        sport := sport
        away_rating := ar.weighted_net
        home_rating := hr.weighted_net
        away_trend := ar.trend_label
        home_trend := hr.trend_label
        model_spread_home := msp.val
        model_total := mt.val
        market_spread_home := mksp.val
        market_total := mkt.val
        home_implied_prob := ip
        spread_edge := pyRound 1 (msp.val - mksp.val)
        total_edge := pyRound 1 (mt.val - mkt.val)
        model_win_prob_home := pyRoundR 3 (spread_to_win_prob sport msp.val)
        ev_pct :=
          if msp.val - mksp.val < 0 then
            compute_ev (spread_to_win_prob sport msp.val) ((max ip 0.01 : ℚ) : ℝ)
          else
            compute_ev (1 - spread_to_win_prob sport msp.val) (1 - ((max ip 0.01 : ℚ) : ℝ))
        injury_impact := inj
        injury_summary_away := sa
        injury_summary_home := sh
        confidence := get_confidence_tier |msp.val - mksp.val| sport
        play_side :=
          if !(decide (|msp.val - mksp.val| ≥ (thresholds_for sport).min_edge_points)) then "NO PLAY"
          else if msp.val - mksp.val < 0 then "HOME"
          else "AWAY"
        is_playable := decide (|msp.val - mksp.val| ≥ (thresholds_for sport).min_edge_points)
        away_regime_shift := ar.regime_shift
        home_regime_shift := hr.regime_shift } := by
  unfold compute_edge
  rw [hv]
  dsimp only
  rw [if_neg (not_lt.mpr hcap)]

theorem thresholds_min_le_strong (sport : String) :
    (thresholds_for sport).min_edge_points ≤ (thresholds_for sport).strong_edge_points ∧
    (thresholds_for sport).strong_edge_points ≤ (thresholds_for sport).strong_edge_points * 1.5 := by
  unfold thresholds_for
  split_ifs <;> norm_num [NBA_THRESHOLDS, NCAAB_THRESHOLDS]

theorem get_confidence_tier_eq (e : ℚ) (sport : String) :
    get_confidence_tier e sport =
      (if (thresholds_for sport).strong_edge_points * 1.5 ≤ e then "🔥 HIGH"
       else if (thresholds_for sport).strong_edge_points ≤ e then "✅ STRONG"
       else if (thresholds_for sport).min_edge_points ≤ e then "⚡ MODERATE"
       else "⚪ LOW") := rfl

theorem get_confidence_tier_of_lt (e : ℚ) (sport : String)
    (h : e < (thresholds_for sport).min_edge_points) :
    get_confidence_tier e sport = "⚪ LOW" := by
  obtain ⟨hms, hss⟩ := thresholds_min_le_strong sport
  rw [get_confidence_tier_eq]
  rw [if_neg (by linarith), if_neg (by linarith), if_neg (by linarith)]

theorem get_confidence_tier_of_ge (e : ℚ) (sport : String)
    (h : (thresholds_for sport).min_edge_points ≤ e) :
    get_confidence_tier e sport = "⚡ MODERATE" ∨
    get_confidence_tier e sport = "✅ STRONG" ∨
    get_confidence_tier e sport = "🔥 HIGH" := by
  rw [get_confidence_tier_eq]
  split_ifs <;> simp_all

set_option maxHeartbeats 1000000 in
theorem validate_none_prob_bounds {msp mt mksp mkt : PyFloat} {ip inj : ℚ}
    {ar hr : PowerRating}
    (hv : validate_inputs msp mt mksp mkt ip inj ar hr = Option.none) :
    0.01 ≤ ip ∧ ip ≤ 0.99 := by
  unfold validate_inputs at hv
  split_ifs at hv with h1 h2 h3 h4 h5 h6 h7 h8 h9 h10
  push_neg at h8
  exact h8


/-- C1: for every input that passes validation and whose raw edge magnitude
is within the 10-point anomaly cap, compute_edge returns play_side "NO PLAY"
when the edge magnitude is below the sport's min_edge_points (regardless of
sign), "HOME" when the model spread is below the market spread, and "AWAY"
when it is above. -/
theorem compute_edge_play_side_sign (sport : String) (ar hr : PowerRating)
    (msp mt mksp mkt : PyFloat) (ip inj : ℚ) (sa sh : String)
    (hv : validate_inputs msp mt mksp mkt ip inj ar hr = Option.none)
    (hcap : |msp.val - mksp.val| ≤ MAX_EDGE_POINTS) :
    (|msp.val - mksp.val| < (thresholds_for sport).min_edge_points →
      (compute_edge sport ar hr msp mt mksp mkt ip inj sa sh).play_side = "NO PLAY") ∧
    ((thresholds_for sport).min_edge_points ≤ |msp.val - mksp.val| →
      (msp.val < mksp.val →
        (compute_edge sport ar hr msp mt mksp mkt ip inj sa sh).play_side = "HOME") ∧
      (mksp.val < msp.val →
        (compute_edge sport ar hr msp mt mksp mkt ip inj sa sh).play_side = "AWAY")) := by
  rw [compute_edge_main sport ar hr msp mt mksp mkt ip inj sa sh hv hcap]
  refine ⟨fun hlt => ?_, fun hge => ⟨fun hh => ?_, fun ha => ?_⟩⟩
  · simp [not_le.mpr hlt]
  · have hneg : msp.val - mksp.val < 0 := sub_neg.mpr hh
    simp [hge, hneg]
  · have hpos : ¬ (msp.val - mksp.val < 0) := by linarith
    simp [hge, hpos]

theorem compute_edge_play_side_sign_witness :
    validate_inputs (PyFloat.num 6.5) (PyFloat.num 220) (PyFloat.num 3) (PyFloat.num 220)
      0.5 0 (sample_rating "LAL" 1) (sample_rating "SAS" 5) = Option.none ∧
    |(PyFloat.num 6.5).val - (PyFloat.num 3).val| ≤ MAX_EDGE_POINTS ∧
    ((thresholds_for "nba").min_edge_points ≤ |(PyFloat.num 6.5).val - (PyFloat.num 3).val| →
      ((PyFloat.num 6.5).val < (PyFloat.num 3).val →
        (compute_edge "nba" (sample_rating "LAL" 1) (sample_rating "SAS" 5)
          (PyFloat.num 6.5) (PyFloat.num 220) (PyFloat.num 3) (PyFloat.num 220)
          0.5 0 "No significant injuries" "No significant injuries").play_side = "HOME") ∧
      ((PyFloat.num 3).val < (PyFloat.num 6.5).val →
        (compute_edge "nba" (sample_rating "LAL" 1) (sample_rating "SAS" 5)
          (PyFloat.num 6.5) (PyFloat.num 220) (PyFloat.num 3) (PyFloat.num 220)
          0.5 0 "No significant injuries" "No significant injuries").play_side = "AWAY")) := by
  have hv : validate_inputs (PyFloat.num 6.5) (PyFloat.num 220) (PyFloat.num 3) (PyFloat.num 220)
      0.5 0 (sample_rating "LAL" 1) (sample_rating "SAS" 5) = Option.none := by
    unfold validate_inputs
    norm_num [PyFloat.isNanOrNull, PyFloat.val, sample_rating,
      MAX_SPREAD_ABS, MAX_TOTAL, MIN_TOTAL, MAX_INJURY_IMPACT, abs_of_nonneg, abs_of_nonpos]
  have hcap : |(PyFloat.num 6.5).val - (PyFloat.num 3).val| ≤ MAX_EDGE_POINTS := by
    norm_num [PyFloat.val, MAX_EDGE_POINTS, abs_of_nonneg]
  exact ⟨hv, hcap,
    (compute_edge_play_side_sign "nba" (sample_rating "LAL" 1) (sample_rating "SAS" 5)
      (PyFloat.num 6.5) (PyFloat.num 220) (PyFloat.num 3) (PyFloat.num 220)
      0.5 0 "No significant injuries" "No significant injuries" hv hcap).2⟩

theorem nba_scenario_fields :
    (compute_edge "nba" (sample_rating "LAL" 1) (sample_rating "SAS" 5)
      (PyFloat.num 6.5) (PyFloat.num 220) (PyFloat.num 3) (PyFloat.num 220)
      0.5 0 "No significant injuries" "No significant injuries").spread_edge = 3.5 ∧
    (compute_edge "nba" (sample_rating "LAL" 1) (sample_rating "SAS" 5)
      (PyFloat.num 6.5) (PyFloat.num 220) (PyFloat.num 3) (PyFloat.num 220)
      0.5 0 "No significant injuries" "No significant injuries").is_playable = true ∧
    (compute_edge "nba" (sample_rating "LAL" 1) (sample_rating "SAS" 5)
      (PyFloat.num 6.5) (PyFloat.num 220) (PyFloat.num 3) (PyFloat.num 220)
      0.5 0 "No significant injuries" "No significant injuries").play_side = "AWAY" := by
  have hv : validate_inputs (PyFloat.num 6.5) (PyFloat.num 220) (PyFloat.num 3) (PyFloat.num 220)
      0.5 0 (sample_rating "LAL" 1) (sample_rating "SAS" 5) = Option.none := by
    unfold validate_inputs
    norm_num [PyFloat.isNanOrNull, PyFloat.val, sample_rating,
      MAX_SPREAD_ABS, MAX_TOTAL, MIN_TOTAL, MAX_INJURY_IMPACT, abs_of_nonneg, abs_of_nonpos]
  have hcap : |(PyFloat.num 6.5).val - (PyFloat.num 3).val| ≤ MAX_EDGE_POINTS := by
    norm_num [PyFloat.val, MAX_EDGE_POINTS, abs_of_nonneg]
  rw [compute_edge_main "nba" (sample_rating "LAL" 1) (sample_rating "SAS" 5)
    (PyFloat.num 6.5) (PyFloat.num 220) (PyFloat.num 3) (PyFloat.num 220)
    0.5 0 "No significant injuries" "No significant injuries" hv hcap]
  have hval : (PyFloat.num 6.5).val - (PyFloat.num 3).val = (3.5 : ℚ) := by
    norm_num [PyFloat.val]
  have hdec : (decide (|(PyFloat.num 6.5).val - (PyFloat.num 3).val| ≥
      (thresholds_for "nba").min_edge_points)) = true := by
    simp only [decide_eq_true_eq, ge_iff_le]
    rw [hval]
    norm_num [thresholds_for, NBA_THRESHOLDS, abs_of_nonneg]
  refine ⟨?_, ?_, ?_⟩
  · show pyRound 1 ((PyFloat.num 6.5).val - (PyFloat.num 3).val) = 3.5
    rw [hval]
    exact pyRound_eq_self 35 (by norm_num)
  · exact hdec
  · show (if !(decide (|(PyFloat.num 6.5).val - (PyFloat.num 3).val| ≥
        (thresholds_for "nba").min_edge_points)) then "NO PLAY"
      else if (PyFloat.num 6.5).val - (PyFloat.num 3).val < 0 then "HOME" else "AWAY") = "AWAY"
    rw [hdec, hval]
    norm_num

/-- C3: a validated input whose raw edge exceeds MAX_EDGE_POINTS is
quarantined (not playable, play side "NO PLAY", reason recorded), and every
result compute_edge marks playable has |spread_edge| bounded by
MAX_EDGE_POINTS — the oversized edge is never propagated. -/
theorem playable_edge_within_cap (sport : String) (ar hr : PowerRating)
    (msp mt mksp mkt : PyFloat) (ip inj : ℚ) (sa sh : String) :
    (validate_inputs msp mt mksp mkt ip inj ar hr = Option.none →
      MAX_EDGE_POINTS < |msp.val - mksp.val| →
      (compute_edge sport ar hr msp mt mksp mkt ip inj sa sh).is_playable = false ∧
      (compute_edge sport ar hr msp mt mksp mkt ip inj sa sh).play_side = "NO PLAY" ∧
      (compute_edge sport ar hr msp mt mksp mkt ip inj sa sh).injury_summary_away = "QUARANTINED" ∧
      (compute_edge sport ar hr msp mt mksp mkt ip inj sa sh).injury_summary_home =
        "Edge " ++ toString (msp.val - mksp.val) ++ " exceeds cap (" ++ toString MAX_EDGE_POINTS ++ "). Likely data error.") ∧
    ((compute_edge sport ar hr msp mt mksp mkt ip inj sa sh).is_playable = true →
      |(compute_edge sport ar hr msp mt mksp mkt ip inj sa sh).spread_edge| ≤ MAX_EDGE_POINTS) := by
  constructor
  · intro hv hcap
    rw [compute_edge_of_anomaly sport ar hr msp mt mksp mkt ip inj sa sh hv hcap]
    exact ⟨rfl, rfl, rfl, rfl⟩
  · intro hp
    rcases hcase : validate_inputs msp mt mksp mkt ip inj ar hr with _ | err
    · by_cases hcap : |msp.val - mksp.val| ≤ MAX_EDGE_POINTS
      · rw [compute_edge_main sport ar hr msp mt mksp mkt ip inj sa sh hcase hcap]
        dsimp only
        have h10 : |msp.val - mksp.val| ≤ 10 := by
          have : MAX_EDGE_POINTS = 10 := by norm_num [MAX_EDGE_POINTS]
          linarith [hcap, this.ge]
        have := abs_pyRound_one_le_ten h10
        have hM : MAX_EDGE_POINTS = 10 := by norm_num [MAX_EDGE_POINTS]
        rw [hM]
        exact this
      · rw [compute_edge_of_anomaly sport ar hr msp mt mksp mkt ip inj sa sh hcase
          (not_le.mp hcap)] at hp
        simp [quarantined_result] at hp
    · rw [compute_edge_of_some sport ar hr msp mt mksp mkt ip inj sa sh err hcase] at hp
      simp [quarantined_result] at hp

theorem playable_edge_within_cap_witness :
    validate_inputs (PyFloat.num 14.5) (PyFloat.num 220) (PyFloat.num 3.5) (PyFloat.num 220)
      0.5 0 (sample_rating "LAL" 1) (sample_rating "SAS" 5) = Option.none ∧
    MAX_EDGE_POINTS < |(PyFloat.num 14.5).val - (PyFloat.num 3.5).val| ∧
    ((compute_edge "nba" (sample_rating "LAL" 1) (sample_rating "SAS" 5)
        (PyFloat.num 14.5) (PyFloat.num 220) (PyFloat.num 3.5) (PyFloat.num 220)
        0.5 0 "No significant injuries" "No significant injuries").is_playable = false ∧
      (compute_edge "nba" (sample_rating "LAL" 1) (sample_rating "SAS" 5)
        (PyFloat.num 14.5) (PyFloat.num 220) (PyFloat.num 3.5) (PyFloat.num 220)
        0.5 0 "No significant injuries" "No significant injuries").play_side = "NO PLAY" ∧
      (compute_edge "nba" (sample_rating "LAL" 1) (sample_rating "SAS" 5)
        (PyFloat.num 14.5) (PyFloat.num 220) (PyFloat.num 3.5) (PyFloat.num 220)
        0.5 0 "No significant injuries" "No significant injuries").injury_summary_away = "QUARANTINED" ∧
      (compute_edge "nba" (sample_rating "LAL" 1) (sample_rating "SAS" 5)
        (PyFloat.num 14.5) (PyFloat.num 220) (PyFloat.num 3.5) (PyFloat.num 220)
        0.5 0 "No significant injuries" "No significant injuries").injury_summary_home =
        "Edge " ++ toString ((PyFloat.num 14.5).val - (PyFloat.num 3.5).val) ++ " exceeds cap (" ++ toString MAX_EDGE_POINTS ++ "). Likely data error.") := by
  have hv : validate_inputs (PyFloat.num 14.5) (PyFloat.num 220) (PyFloat.num 3.5) (PyFloat.num 220)
      0.5 0 (sample_rating "LAL" 1) (sample_rating "SAS" 5) = Option.none := by
    unfold validate_inputs
    norm_num [PyFloat.isNanOrNull, PyFloat.val, sample_rating,
      MAX_SPREAD_ABS, MAX_TOTAL, MIN_TOTAL, MAX_INJURY_IMPACT, abs_of_nonneg, abs_of_nonpos]
  have hcap : MAX_EDGE_POINTS < |(PyFloat.num 14.5).val - (PyFloat.num 3.5).val| := by
    norm_num [PyFloat.val, MAX_EDGE_POINTS, abs_of_nonneg]
  exact ⟨hv, hcap,
    (playable_edge_within_cap "nba" (sample_rating "LAL" 1) (sample_rating "SAS" 5)
      (PyFloat.num 14.5) (PyFloat.num 220) (PyFloat.num 3.5) (PyFloat.num 220)
      0.5 0 "No significant injuries" "No significant injuries").1 hv hcap⟩

/-- C10: every playable result of compute_edge carries confidence
"⚡ MODERATE", "✅ STRONG" or "🔥 HIGH", and a result whose confidence is
"⚪ LOW" is never playable — so tier "⚪ LOW" implies the result is not a
playable pick. -/
theorem playable_implies_confidence_not_low (sport : String) (ar hr : PowerRating)
    (msp mt mksp mkt : PyFloat) (ip inj : ℚ) (sa sh : String) :
    ((compute_edge sport ar hr msp mt mksp mkt ip inj sa sh).is_playable = true →
      ((compute_edge sport ar hr msp mt mksp mkt ip inj sa sh).confidence = "⚡ MODERATE" ∨
       (compute_edge sport ar hr msp mt mksp mkt ip inj sa sh).confidence = "✅ STRONG" ∨
       (compute_edge sport ar hr msp mt mksp mkt ip inj sa sh).confidence = "🔥 HIGH")) ∧
    ((compute_edge sport ar hr msp mt mksp mkt ip inj sa sh).confidence = "⚪ LOW" →
      (compute_edge sport ar hr msp mt mksp mkt ip inj sa sh).is_playable = false) := by
  rcases hcase : validate_inputs msp mt mksp mkt ip inj ar hr with _ | err
  · by_cases hcap : |msp.val - mksp.val| ≤ MAX_EDGE_POINTS
    · rw [compute_edge_main sport ar hr msp mt mksp mkt ip inj sa sh hcase hcap]
      dsimp only
      constructor
      · intro hp
        have hge : (thresholds_for sport).min_edge_points ≤ |msp.val - mksp.val| :=
          of_decide_eq_true hp
        exact get_confidence_tier_of_ge _ _ hge
      · intro hc
        by_cases hge : (thresholds_for sport).min_edge_points ≤ |msp.val - mksp.val|
        · rcases get_confidence_tier_of_ge _ sport hge with h | h | h <;>
            rw [hc] at h <;> exact absurd h (by decide)
        · simp only [decide_eq_false_iff_not, ge_iff_le]
          exact hge
    · rw [compute_edge_of_anomaly sport ar hr msp mt mksp mkt ip inj sa sh hcase
        (not_le.mp hcap)]
      refine ⟨fun hp => ?_, fun _ => rfl⟩
      simp [quarantined_result] at hp
  · rw [compute_edge_of_some sport ar hr msp mt mksp mkt ip inj sa sh err hcase]
    refine ⟨fun hp => ?_, fun _ => rfl⟩
    simp [quarantined_result] at hp

theorem playable_implies_confidence_not_low_witness :
    ((compute_edge "nba" (sample_rating "LAL" 1) (sample_rating "SAS" 5)
        (PyFloat.num 6.5) (PyFloat.num 220) (PyFloat.num 3) (PyFloat.num 220)
        0.5 0 "No significant injuries" "No significant injuries").is_playable = true →
      ((compute_edge "nba" (sample_rating "LAL" 1) (sample_rating "SAS" 5)
        (PyFloat.num 6.5) (PyFloat.num 220) (PyFloat.num 3) (PyFloat.num 220)
        0.5 0 "No significant injuries" "No significant injuries").confidence = "⚡ MODERATE" ∨
       (compute_edge "nba" (sample_rating "LAL" 1) (sample_rating "SAS" 5)
        (PyFloat.num 6.5) (PyFloat.num 220) (PyFloat.num 3) (PyFloat.num 220)
        0.5 0 "No significant injuries" "No significant injuries").confidence = "✅ STRONG" ∨
       (compute_edge "nba" (sample_rating "LAL" 1) (sample_rating "SAS" 5)
        (PyFloat.num 6.5) (PyFloat.num 220) (PyFloat.num 3) (PyFloat.num 220)
        0.5 0 "No significant injuries" "No significant injuries").confidence = "🔥 HIGH")) ∧
    ((compute_edge "nba" (sample_rating "LAL" 1) (sample_rating "SAS" 5)
        (PyFloat.num 6.5) (PyFloat.num 220) (PyFloat.num 3) (PyFloat.num 220)
        0.5 0 "No significant injuries" "No significant injuries").confidence = "⚪ LOW" →
      (compute_edge "nba" (sample_rating "LAL" 1) (sample_rating "SAS" 5)
        (PyFloat.num 6.5) (PyFloat.num 220) (PyFloat.num 3) (PyFloat.num 220)
        0.5 0 "No significant injuries" "No significant injuries").is_playable = false) :=
  playable_implies_confidence_not_low "nba" (sample_rating "LAL" 1) (sample_rating "SAS" 5)
    (PyFloat.num 6.5) (PyFloat.num 220) (PyFloat.num 3) (PyFloat.num 220)
    0.5 0 "No significant injuries" "No significant injuries"

theorem append_ne_empty_left {s t : String} (h : s ≠ "") : s ++ t ≠ "" := by
  intro he
  apply h
  have hlen := congrArg String.length he
  rw [String.length_append] at hlen
  have h0 : ("" : String).length = 0 := rfl
  have hz : s.length = 0 := by omega
  cases s with
  | mk data =>
    cases data with
    | nil => rfl
    | cons c cs => simp [String.length] at hz

set_option maxHeartbeats 1000000 in
theorem validate_some_ne_empty {msp mt mksp mkt : PyFloat} {ip inj : ℚ}
    {ar hr : PowerRating} {err : String}
    (hv : validate_inputs msp mt mksp mkt ip inj ar hr = Option.some err) :
    err ≠ "" := by
  unfold validate_inputs at hv
  split_ifs at hv <;>
    (injection hv with h
     subst h
     repeat apply append_ne_empty_left
     decide)

set_option maxHeartbeats 1000000 in
/-- C4: whenever any of the claim's bad-input conditions holds — a spread
beyond ±30, a NaN/None spread or total, a positive model total outside
[150, 300], an implied probability outside [0.01, 0.99], an injury impact
beyond ±12, or a weighted net rating beyond ±25 — validation yields a
non-empty reason and compute_edge returns the quarantined result with
is_playable false and play_side "NO PLAY"; compute_edge is a total
function, so no exception is modelled or possible. -/
theorem invalid_inputs_quarantined (sport : String) (ar hr : PowerRating)
    (msp mt mksp mkt : PyFloat) (ip inj : ℚ) (sa sh : String)
    (h : MAX_SPREAD_ABS < |msp.val| ∨ MAX_SPREAD_ABS < |mksp.val| ∨
         msp.isNanOrNull = true ∨ mksp.isNanOrNull = true ∨
         mt.isNanOrNull = true ∨ mkt.isNanOrNull = true ∨
         (0 < mt.val ∧ (MAX_TOTAL < mt.val ∨ mt.val < MIN_TOTAL)) ∨
         ip < 0.01 ∨ 0.99 < ip ∨
         MAX_INJURY_IMPACT < |inj| ∨
         25 < |ar.weighted_net| ∨ 25 < |hr.weighted_net|) :
    ∃ err, validate_inputs msp mt mksp mkt ip inj ar hr = Option.some err ∧ err ≠ "" ∧
      compute_edge sport ar hr msp mt mksp mkt ip inj sa sh = quarantined_result sport ar hr err ∧
      (compute_edge sport ar hr msp mt mksp mkt ip inj sa sh).is_playable = false ∧
      (compute_edge sport ar hr msp mt mksp mkt ip inj sa sh).play_side = "NO PLAY" := by
  have hsome : ∃ err, validate_inputs msp mt mksp mkt ip inj ar hr = Option.some err := by
    unfold validate_inputs
    split_ifs with h1 h2 h3 h4 h5 h6 h7 h8 h9 h10
    · exact ⟨_, rfl⟩
    · exact ⟨_, rfl⟩
    · exact ⟨_, rfl⟩
    · exact ⟨_, rfl⟩
    · exact ⟨_, rfl⟩
    · exact ⟨_, rfl⟩
    · exact ⟨_, rfl⟩
    · exact ⟨_, rfl⟩
    · exact ⟨_, rfl⟩
    · exact ⟨_, rfl⟩
    · exfalso
      rcases h with hc | hc | hc | hc | hc | hc | hc | hc | hc | hc | hc | hc
      · exact h5 hc
      · exact h6 hc
      · exact h1 hc
      · exact h2 hc
      · exact h3 hc
      · exact h4 hc
      · exact h7 hc
      · exact h8 (Or.inl hc)
      · exact h8 (Or.inr hc)
      · exact h9 hc
      · exact h10 (Or.inl hc)
      · exact h10 (Or.inr hc)
  obtain ⟨err, herr⟩ := hsome
  refine ⟨err, herr, validate_some_ne_empty herr, ?_, ?_, ?_⟩
  · exact compute_edge_of_some sport ar hr msp mt mksp mkt ip inj sa sh err herr
  · rw [compute_edge_of_some sport ar hr msp mt mksp mkt ip inj sa sh err herr]
    rfl
  · rw [compute_edge_of_some sport ar hr msp mt mksp mkt ip inj sa sh err herr]
    rfl

theorem invalid_inputs_quarantined_witness :
    (MAX_SPREAD_ABS < |(PyFloat.num 31).val| ∨ MAX_SPREAD_ABS < |(PyFloat.num 3).val| ∨
      (PyFloat.num 31).isNanOrNull = true ∨ (PyFloat.num 3).isNanOrNull = true ∨
      (PyFloat.num 220).isNanOrNull = true ∨ (PyFloat.num 220).isNanOrNull = true ∨
      (0 < (PyFloat.num 220).val ∧ (MAX_TOTAL < (PyFloat.num 220).val ∨ (PyFloat.num 220).val < MIN_TOTAL)) ∨
      (0.5 : ℚ) < 0.01 ∨ (0.99 : ℚ) < 0.5 ∨
      MAX_INJURY_IMPACT < |(0 : ℚ)| ∨
      25 < |(sample_rating "LAL" 1).weighted_net| ∨ 25 < |(sample_rating "SAS" 5).weighted_net|) ∧
    (∃ err, validate_inputs (PyFloat.num 31) (PyFloat.num 220) (PyFloat.num 3) (PyFloat.num 220)
        0.5 0 (sample_rating "LAL" 1) (sample_rating "SAS" 5) = Option.some err ∧ err ≠ "" ∧
      compute_edge "nba" (sample_rating "LAL" 1) (sample_rating "SAS" 5)
        (PyFloat.num 31) (PyFloat.num 220) (PyFloat.num 3) (PyFloat.num 220)
        0.5 0 "No significant injuries" "No significant injuries" =
          quarantined_result "nba" (sample_rating "LAL" 1) (sample_rating "SAS" 5) err ∧
      (compute_edge "nba" (sample_rating "LAL" 1) (sample_rating "SAS" 5)
        (PyFloat.num 31) (PyFloat.num 220) (PyFloat.num 3) (PyFloat.num 220)
        0.5 0 "No significant injuries" "No significant injuries").is_playable = false ∧
      (compute_edge "nba" (sample_rating "LAL" 1) (sample_rating "SAS" 5)
        (PyFloat.num 31) (PyFloat.num 220) (PyFloat.num 3) (PyFloat.num 220)
        0.5 0 "No significant injuries" "No significant injuries").play_side = "NO PLAY") := by
  have hd : MAX_SPREAD_ABS < |(PyFloat.num 31).val| := by
    norm_num [PyFloat.val, MAX_SPREAD_ABS, abs_of_nonneg]
  exact ⟨Or.inl hd,
    invalid_inputs_quarantined "nba" (sample_rating "LAL" 1) (sample_rating "SAS" 5)
      (PyFloat.num 31) (PyFloat.num 220) (PyFloat.num 3) (PyFloat.num 220)
      0.5 0 "No significant injuries" "No significant injuries" (Or.inl hd)⟩

/-- C5 amended: for every validated, non-anomalous input, ev_pct equals
round((modelProb/marketProb − 1) × 100, 2) where the model probability comes
from the model spread via the logistic conversion and the market-side
probability is the supplied moneyline-implied home probability clamped below
at 0.01 (its complement for the away side) — not a probability derived from
the market spread. -/
theorem ev_uses_implied_market_prob (sport : String) (ar hr : PowerRating)
    (msp mt mksp mkt : PyFloat) (ip inj : ℚ) (sa sh : String)
    (hv : validate_inputs msp mt mksp mkt ip inj ar hr = Option.none)
    (hcap : |msp.val - mksp.val| ≤ MAX_EDGE_POINTS) :
    (compute_edge sport ar hr msp mt mksp mkt ip inj sa sh).ev_pct =
      (if msp.val - mksp.val < 0 then
        pyRoundR 2 ((spread_to_win_prob sport msp.val / ((max ip 0.01 : ℚ) : ℝ) - 1) * 100)
      else
        pyRoundR 2 (((1 - spread_to_win_prob sport msp.val) / (1 - ((max ip 0.01 : ℚ) : ℝ)) - 1) * 100)) := by
  obtain ⟨hlo, hhi⟩ := validate_none_prob_bounds hv
  rw [compute_edge_main sport ar hr msp mt mksp mkt ip inj sa sh hv hcap]
  dsimp only
  split_ifs with hsign
  · have hpos : ¬ (((max ip 0.01 : ℚ) : ℝ) ≤ 0) := by
      push_neg
      have h1 : (0.01 : ℚ) ≤ max ip 0.01 := le_max_right _ _
      have h2 : ((0.01 : ℚ) : ℝ) ≤ ((max ip 0.01 : ℚ) : ℝ) := by exact_mod_cast h1
      have h3 : (0 : ℝ) < ((0.01 : ℚ) : ℝ) := by norm_num
      linarith
    unfold compute_ev
    rw [if_neg hpos]
  · have hpos : ¬ ((1 - ((max ip 0.01 : ℚ) : ℝ)) ≤ 0) := by
      push_neg
      have h1 : max ip 0.01 ≤ (0.99 : ℚ) := max_le hhi (by norm_num)
      have h2 : ((max ip 0.01 : ℚ) : ℝ) ≤ ((0.99 : ℚ) : ℝ) := by exact_mod_cast h1
      have h3 : ((0.99 : ℚ) : ℝ) < 1 := by norm_num
      linarith
    unfold compute_ev
    rw [if_neg hpos]

theorem ev_uses_implied_market_prob_witness :
    validate_inputs (PyFloat.num 6.5) (PyFloat.num 220) (PyFloat.num 3) (PyFloat.num 220)
      0.8 0 (sample_rating "LAL" 1) (sample_rating "SAS" 5) = Option.none ∧
    |(PyFloat.num 6.5).val - (PyFloat.num 3).val| ≤ MAX_EDGE_POINTS ∧
    (compute_edge "nba" (sample_rating "LAL" 1) (sample_rating "SAS" 5)
        (PyFloat.num 6.5) (PyFloat.num 220) (PyFloat.num 3) (PyFloat.num 220)
        0.8 0 "No significant injuries" "No significant injuries").ev_pct =
      (if (PyFloat.num 6.5).val - (PyFloat.num 3).val < 0 then
        pyRoundR 2 ((spread_to_win_prob "nba" (PyFloat.num 6.5).val / ((max 0.8 0.01 : ℚ) : ℝ) - 1) * 100)
      else
        pyRoundR 2 (((1 - spread_to_win_prob "nba" (PyFloat.num 6.5).val) / (1 - ((max 0.8 0.01 : ℚ) : ℝ)) - 1) * 100)) := by
  have hv : validate_inputs (PyFloat.num 6.5) (PyFloat.num 220) (PyFloat.num 3) (PyFloat.num 220)
      0.8 0 (sample_rating "LAL" 1) (sample_rating "SAS" 5) = Option.none := by
    unfold validate_inputs
    norm_num [PyFloat.isNanOrNull, PyFloat.val, sample_rating,
      MAX_SPREAD_ABS, MAX_TOTAL, MIN_TOTAL, MAX_INJURY_IMPACT, abs_of_nonneg, abs_of_nonpos]
  have hcap : |(PyFloat.num 6.5).val - (PyFloat.num 3).val| ≤ MAX_EDGE_POINTS := by
    norm_num [PyFloat.val, MAX_EDGE_POINTS, abs_of_nonneg]
  exact ⟨hv, hcap,
    ev_uses_implied_market_prob "nba" (sample_rating "LAL" 1) (sample_rating "SAS" 5)
      (PyFloat.num 6.5) (PyFloat.num 220) (PyFloat.num 3) (PyFloat.num 220)
      0.8 0 "No significant injuries" "No significant injuries" hv hcap⟩

/-- C5 counterexample: with model spread 0, market spread 3 and implied home
probability 0.8, the code returns ev_pct = −37.5 (computed against the
clamped implied probability), while converting the market spread itself to a
probability, as the claim states, would give a non-negative EV. -/
theorem ev_market_prob_cex :
    (compute_edge "nba" (sample_rating "LAL" 1) (sample_rating "SAS" 5)
      (PyFloat.num 0) (PyFloat.num 220) (PyFloat.num 3) (PyFloat.num 220)
      0.8 0 "No significant injuries" "No significant injuries").ev_pct = -37.5 ∧
    pyRoundR 2 ((spread_to_win_prob "nba" (PyFloat.num 0).val /
      spread_to_win_prob "nba" (PyFloat.num 3).val - 1) * 100) ≠ -37.5 := by
  have hp0 : spread_to_win_prob "nba" (PyFloat.num 0).val = 1/2 := by
    unfold spread_to_win_prob
    norm_num [PyFloat.val, Real.rpow_zero]
  have hp3 : spread_to_win_prob "nba" (PyFloat.num 3).val =
      1 / (1 + (10:ℝ) ^ ((3:ℝ)/8)) := by
    unfold spread_to_win_prob
    norm_num [PyFloat.val]
  constructor
  · have hv : validate_inputs (PyFloat.num 0) (PyFloat.num 220) (PyFloat.num 3) (PyFloat.num 220)
        0.8 0 (sample_rating "LAL" 1) (sample_rating "SAS" 5) = Option.none := by
      unfold validate_inputs
      norm_num [PyFloat.isNanOrNull, PyFloat.val, sample_rating,
        MAX_SPREAD_ABS, MAX_TOTAL, MIN_TOTAL, MAX_INJURY_IMPACT, abs_of_nonneg, abs_of_nonpos]
    have hcap : |(PyFloat.num 0).val - (PyFloat.num 3).val| ≤ MAX_EDGE_POINTS := by
      norm_num [PyFloat.val, MAX_EDGE_POINTS, abs_of_nonpos]
    rw [compute_edge_main "nba" (sample_rating "LAL" 1) (sample_rating "SAS" 5)
      (PyFloat.num 0) (PyFloat.num 220) (PyFloat.num 3) (PyFloat.num 220)
      0.8 0 "No significant injuries" "No significant injuries" hv hcap]
    dsimp only
    rw [if_pos (show (PyFloat.num 0).val - (PyFloat.num 3).val < 0 by norm_num [PyFloat.val])]
    rw [hp0]
    have hmax : ((max (0.8 : ℚ) 0.01 : ℚ) : ℝ) = 0.8 := by norm_num
    rw [hmax]
    unfold compute_ev
    rw [if_neg (by norm_num : ¬ ((0.8:ℝ) ≤ 0))]
    rw [show ((1:ℝ)/2 / 0.8 - 1) * 100 = -37.5 by norm_num]
    exact pyRoundR_eq_self (-3750) (by norm_num)
  · rw [hp0, hp3]
    have hP1 : (1:ℝ) ≤ (10:ℝ) ^ ((3:ℝ)/8) := by
      have h0 : (10:ℝ)^(0:ℝ) ≤ (10:ℝ)^((3:ℝ)/8) :=
        (Real.rpow_le_rpow_left_iff (by norm_num : (1:ℝ) < 10)).mpr (by norm_num)
      simpa [Real.rpow_zero] using h0
    have hPpos : (0:ℝ) < (10:ℝ) ^ ((3:ℝ)/8) := Real.rpow_pos_of_pos (by norm_num) _
    have hqpos : (0:ℝ) < 1 / (1 + (10:ℝ) ^ ((3:ℝ)/8)) := by positivity
    have hqle : 1 / (1 + (10:ℝ) ^ ((3:ℝ)/8)) ≤ 1/2 := by
      rw [div_le_div_iff₀ (by linarith) (by norm_num)]
      linarith
    have hX : (0:ℝ) ≤ ((1:ℝ)/2 / (1 / (1 + (10:ℝ) ^ ((3:ℝ)/8))) - 1) * 100 := by
      have hge : (1:ℝ) ≤ (1:ℝ)/2 / (1 / (1 + (10:ℝ) ^ ((3:ℝ)/8))) := by
        rw [le_div_iff₀ hqpos]
        linarith
      linarith
    have hnn := pyRoundR_nonneg (n := 2) hX
    intro heq
    rw [heq] at hnn
    norm_num at hnn

/-- C2 counterexample: in the spec's section-8 scenario (model spread 6.5,
market spread 3.0, everything else valid) the code returns a playable +3.5
edge whose play_side is not "HOME" — the claim's stated side is wrong. -/
theorem nba_scenario_play_side_cex :
    (compute_edge "nba" (sample_rating "LAL" 1) (sample_rating "SAS" 5)
      (PyFloat.num 6.5) (PyFloat.num 220) (PyFloat.num 3) (PyFloat.num 220)
      0.5 0 "No significant injuries" "No significant injuries").spread_edge = 3.5 ∧
    (compute_edge "nba" (sample_rating "LAL" 1) (sample_rating "SAS" 5)
      (PyFloat.num 6.5) (PyFloat.num 220) (PyFloat.num 3) (PyFloat.num 220)
      0.5 0 "No significant injuries" "No significant injuries").is_playable = true ∧
    (compute_edge "nba" (sample_rating "LAL" 1) (sample_rating "SAS" 5)
      (PyFloat.num 6.5) (PyFloat.num 220) (PyFloat.num 3) (PyFloat.num 220)
      0.5 0 "No significant injuries" "No significant injuries").play_side ≠ "HOME" := by
  refine ⟨nba_scenario_fields.1, nba_scenario_fields.2.1, ?_⟩
  rw [nba_scenario_fields.2.2]
  decide

/-- C2 amended: in the section-8 scenario — model_spread_home 6.5 as derived
by compute_model_spread from home net +5.0, away net +1.0 and the +2.5 home
court, market_spread_home 3.0 — compute_edge returns spread_edge 3.5,
is_playable true and play_side "AWAY" (positive edge means the away side is
the play under the code's sign rule). -/
theorem nba_scenario_play_side_amended :
    compute_model_spread (sample_rating "SAS" 5) (sample_rating "LAL" 1) "SAS" 0 0 = 6.5 ∧
    (compute_edge "nba" (sample_rating "LAL" 1) (sample_rating "SAS" 5)
      (PyFloat.num 6.5) (PyFloat.num 220) (PyFloat.num 3) (PyFloat.num 220)
      0.5 0 "No significant injuries" "No significant injuries").spread_edge = 3.5 ∧
    (compute_edge "nba" (sample_rating "LAL" 1) (sample_rating "SAS" 5)
      (PyFloat.num 6.5) (PyFloat.num 220) (PyFloat.num 3) (PyFloat.num 220)
      0.5 0 "No significant injuries" "No significant injuries").is_playable = true ∧
    (compute_edge "nba" (sample_rating "LAL" 1) (sample_rating "SAS" 5)
      (PyFloat.num 6.5) (PyFloat.num 220) (PyFloat.num 3) (PyFloat.num 220)
      0.5 0 "No significant injuries" "No significant injuries").play_side = "AWAY" := by
  refine ⟨?_, nba_scenario_fields.1, nba_scenario_fields.2.1, nba_scenario_fields.2.2⟩
  unfold compute_model_spread
  dsimp only
  rw [if_pos (show "SAS".toUpper = (sample_rating "SAS" 5).team_abbr.toUpper from rfl)]
  have h65 : pyRound 1 ((13 : ℚ) / 2) = 13 / 2 := pyRound_eq_self 65 (by norm_num)
  norm_num [sample_rating, HOME_COURT, h65]

/-- C6: for every NBA profile with a season window and no last-1 window the
computed weighted composites use the fallback-resolved values — the last-1
slot resolves to the last-5 value, which falls back to last-15 and then to
season, for net, offence, defence and pace alike (never zero) — and a
profile without a season window produces no PowerRating and contributes
nothing to the output map. -/
theorem nba_rating_window_fallback :
    (∀ (w : RatingWeights) (abbr : String) (prof : TeamProfile) (s : TeamMetrics),
      prof.season = Option.some s → prof.last_1 = Option.none →
      (      (compute_nba_rating w abbr prof).map PowerRating.weighted_net =
        Option.some (pyRound 2 (w.season * s.net_rating +
          w.last_15 * ((prof.last_15.map TeamMetrics.net_rating).getD s.net_rating) +
          w.last_5 * ((prof.last_5.map TeamMetrics.net_rating).getD
            ((prof.last_15.map TeamMetrics.net_rating).getD s.net_rating)) +
          w.last_1 * ((prof.last_5.map TeamMetrics.net_rating).getD
            ((prof.last_15.map TeamMetrics.net_rating).getD s.net_rating)))) ∧
      (compute_nba_rating w abbr prof).map PowerRating.weighted_off =
        Option.some (pyRound 2 (w.season * s.off_rating +
          w.last_15 * ((prof.last_15.map TeamMetrics.off_rating).getD s.off_rating) +
          w.last_5 * ((prof.last_5.map TeamMetrics.off_rating).getD
            ((prof.last_15.map TeamMetrics.off_rating).getD s.off_rating)) +
          w.last_1 * ((prof.last_5.map TeamMetrics.off_rating).getD
            ((prof.last_15.map TeamMetrics.off_rating).getD s.off_rating)))) ∧
      (compute_nba_rating w abbr prof).map PowerRating.weighted_def =
        Option.some (pyRound 2 (w.season * s.def_rating +
          w.last_15 * ((prof.last_15.map TeamMetrics.def_rating).getD s.def_rating) +
          w.last_5 * ((prof.last_5.map TeamMetrics.def_rating).getD
            ((prof.last_15.map TeamMetrics.def_rating).getD s.def_rating)) +
          w.last_1 * ((prof.last_5.map TeamMetrics.def_rating).getD
            ((prof.last_15.map TeamMetrics.def_rating).getD s.def_rating)))) ∧
      (compute_nba_rating w abbr prof).map PowerRating.weighted_pace =
        Option.some (pyRound 2 (w.season * s.pace +
          w.last_15 * ((prof.last_15.map TeamMetrics.pace).getD s.pace) +
          w.last_5 * ((prof.last_5.map TeamMetrics.pace).getD
            ((prof.last_15.map TeamMetrics.pace).getD s.pace)) +
          w.last_1 * ((prof.last_5.map TeamMetrics.pace).getD
            ((prof.last_15.map TeamMetrics.pace).getD s.pace)))))) ∧
    (∀ (w : RatingWeights) (abbr : String) (prof : TeamProfile),
      prof.season = Option.none →
      compute_nba_rating w abbr prof = Option.none ∧
      ∀ rest, compute_nba_ratings w ((abbr, prof) :: rest) = compute_nba_ratings w rest) := by
  constructor
  · intro w abbr prof s hs h1
    refine ⟨?_, ?_, ?_, ?_⟩ <;>
      (unfold compute_nba_rating
       rw [hs, h1]
       dsimp only
       cases prof.last_15 <;> cases prof.last_5 <;> rfl)
  · intro w abbr prof hs
    constructor
    · unfold compute_nba_rating
      rw [hs]
    · intro rest
      have hnone : compute_nba_rating w abbr prof = Option.none := by
        unfold compute_nba_rating
        rw [hs]
      simp [compute_nba_ratings, hnone]

theorem nba_rating_window_fallback_witness :
    sample_profile_no_last1.season = Option.some (sample_metrics 5) ∧
    sample_profile_no_last1.last_1 = Option.none ∧
    sample_profile_no_season.season = Option.none ∧
    (     (compute_nba_rating NBA_WEIGHTS "SAS" sample_profile_no_last1).map PowerRating.weighted_net =
        Option.some (pyRound 2 (NBA_WEIGHTS.season * (sample_metrics 5).net_rating +
          NBA_WEIGHTS.last_15 * ((sample_profile_no_last1.last_15.map TeamMetrics.net_rating).getD (sample_metrics 5).net_rating) +
          NBA_WEIGHTS.last_5 * ((sample_profile_no_last1.last_5.map TeamMetrics.net_rating).getD
            ((sample_profile_no_last1.last_15.map TeamMetrics.net_rating).getD (sample_metrics 5).net_rating)) +
          NBA_WEIGHTS.last_1 * ((sample_profile_no_last1.last_5.map TeamMetrics.net_rating).getD
            ((sample_profile_no_last1.last_15.map TeamMetrics.net_rating).getD (sample_metrics 5).net_rating)))) ∧
     (compute_nba_rating NBA_WEIGHTS "SAS" sample_profile_no_last1).map PowerRating.weighted_off =
        Option.some (pyRound 2 (NBA_WEIGHTS.season * (sample_metrics 5).off_rating +
          NBA_WEIGHTS.last_15 * ((sample_profile_no_last1.last_15.map TeamMetrics.off_rating).getD (sample_metrics 5).off_rating) +
          NBA_WEIGHTS.last_5 * ((sample_profile_no_last1.last_5.map TeamMetrics.off_rating).getD
            ((sample_profile_no_last1.last_15.map TeamMetrics.off_rating).getD (sample_metrics 5).off_rating)) +
          NBA_WEIGHTS.last_1 * ((sample_profile_no_last1.last_5.map TeamMetrics.off_rating).getD
            ((sample_profile_no_last1.last_15.map TeamMetrics.off_rating).getD (sample_metrics 5).off_rating)))) ∧
     (compute_nba_rating NBA_WEIGHTS "SAS" sample_profile_no_last1).map PowerRating.weighted_def =
        Option.some (pyRound 2 (NBA_WEIGHTS.season * (sample_metrics 5).def_rating +
          NBA_WEIGHTS.last_15 * ((sample_profile_no_last1.last_15.map TeamMetrics.def_rating).getD (sample_metrics 5).def_rating) +
          NBA_WEIGHTS.last_5 * ((sample_profile_no_last1.last_5.map TeamMetrics.def_rating).getD
            ((sample_profile_no_last1.last_15.map TeamMetrics.def_rating).getD (sample_metrics 5).def_rating)) +
          NBA_WEIGHTS.last_1 * ((sample_profile_no_last1.last_5.map TeamMetrics.def_rating).getD
            ((sample_profile_no_last1.last_15.map TeamMetrics.def_rating).getD (sample_metrics 5).def_rating)))) ∧
     (compute_nba_rating NBA_WEIGHTS "SAS" sample_profile_no_last1).map PowerRating.weighted_pace =
        Option.some (pyRound 2 (NBA_WEIGHTS.season * (sample_metrics 5).pace +
          NBA_WEIGHTS.last_15 * ((sample_profile_no_last1.last_15.map TeamMetrics.pace).getD (sample_metrics 5).pace) +
          NBA_WEIGHTS.last_5 * ((sample_profile_no_last1.last_5.map TeamMetrics.pace).getD
            ((sample_profile_no_last1.last_15.map TeamMetrics.pace).getD (sample_metrics 5).pace)) +
          NBA_WEIGHTS.last_1 * ((sample_profile_no_last1.last_5.map TeamMetrics.pace).getD
            ((sample_profile_no_last1.last_15.map TeamMetrics.pace).getD (sample_metrics 5).pace))))) ∧
    compute_nba_rating NBA_WEIGHTS "LAL" sample_profile_no_season = Option.none :=
  ⟨rfl, rfl, rfl,
    nba_rating_window_fallback.1 NBA_WEIGHTS "SAS" sample_profile_no_last1
      (sample_metrics 5) rfl rfl,
    (nba_rating_window_fallback.2 NBA_WEIGHTS "LAL" sample_profile_no_season rfl).1⟩

/-- C7: rank_edges edges n is the n-prefix of a list s that is a permutation
of the playable elements of edges, sorted descending by |spread_edge|, with
every correctly-ordered pair — ties included — keeping its input order
(stability); the output length is at most n and every element is playable.
rank_edges is a pure function, so it cannot mutate its input and calling it
twice trivially yields the same output. -/
theorem rank_edges_spec (edges : List EdgeResult) (n : ℕ) :
    ∃ s : List EdgeResult,
      (edges.filter (fun e => e.is_playable)).Perm s ∧
      s.Pairwise (fun a b => b.edge_abs ≤ a.edge_abs) ∧
      (∀ a b : EdgeResult, [a, b].Sublist (edges.filter (fun e => e.is_playable)) →
        b.edge_abs ≤ a.edge_abs → [a, b].Sublist s) ∧
      rank_edges edges n = s.take n ∧
      (rank_edges edges n).length ≤ n ∧
      (∀ e ∈ rank_edges edges n, e.is_playable = true) := by
  have htrans : ∀ a b c : EdgeResult,
      decide (b.edge_abs ≤ a.edge_abs) = true →
      decide (c.edge_abs ≤ b.edge_abs) = true →
      decide (c.edge_abs ≤ a.edge_abs) = true := by
    intro a b c hab hbc
    simp only [decide_eq_true_eq] at hab hbc ⊢
    exact le_trans hbc hab
  have htotal : ∀ a b : EdgeResult,
      (decide (b.edge_abs ≤ a.edge_abs) || decide (a.edge_abs ≤ b.edge_abs)) = true := by
    intro a b
    simp only [Bool.or_eq_true, decide_eq_true_eq]
    exact le_total _ _
  refine ⟨(edges.filter (fun e => e.is_playable)).mergeSort
      (fun a b => decide (b.edge_abs ≤ a.edge_abs)), ?_, ?_, ?_, ?_, ?_, ?_⟩
  · exact (List.mergeSort_perm _ _).symm
  · have := List.sorted_mergeSort htrans htotal (edges.filter (fun e => e.is_playable))
    exact this.imp (fun h => of_decide_eq_true h)
  · intro a b hsub hba
    exact List.pair_sublist_mergeSort htrans htotal (decide_eq_true hba) hsub
  · rfl
  · exact List.length_take_le _ _
  · intro e he
    have h1 : e ∈ (edges.filter (fun e => e.is_playable)).mergeSort
        (fun a b => decide (b.edge_abs ≤ a.edge_abs)) := List.take_subset _ _ he
    have h2 : e ∈ edges.filter (fun e => e.is_playable) :=
      (List.mergeSort_perm _ _).mem_iff.mp h1
    simpa using (List.mem_filter.mp h2).2

theorem update_result_find_none {db : List PickRow} {i : ℕ} (c : ℚ) (r : String)
    (h : db.find? (fun p => p.id == i) = Option.none) :
    update_result db i c r = db := by
  unfold update_result
  rw [h]

theorem update_result_find_some {db : List PickRow} {i : ℕ} {row : PickRow} (c : ℚ) (r : String)
    (h : db.find? (fun p => p.id == i) = Option.some row) :
    update_result db i c r = db.map (fun p =>
      if p.id = i then
        { p with closing_line := Option.some c
                 result := r
                 profit_units := (grade_values row c r).1
                 clv := (grade_values row c r).2 }
      else p) := by
  unfold update_result
  rw [h]

theorem update_result_length (db : List PickRow) (i : ℕ) (c : ℚ) (r : String) :
    (update_result db i c r).length = db.length := by
  cases h : db.find? (fun p => p.id == i) with
  | none => rw [update_result_find_none c r h]
  | some row => rw [update_result_find_some c r h, List.length_map]

/-- C9 amended: update_result never rejects a second grading and appends no
correction record — re-grading a pick is exactly equivalent to having graded
it only with the second call's arguments (the first grading's closing_line,
result, profit_units and clv are silently overwritten), and the ledger's
length never changes. -/
theorem update_result_regrade (db : List PickRow) (i : ℕ) (c c' : ℚ) (r r' : String) :
    update_result (update_result db i c r) i c' r' = update_result db i c' r' ∧
    (update_result db i c r).length = db.length := by
  refine ⟨?_, update_result_length db i c r⟩
  cases hf : db.find? (fun p => p.id == i) with
  | none =>
    rw [update_result_find_none c r hf]
  | some row =>
    have hid : (row.id == i) = true := by
      have := List.find?_some hf
      exact this
    rw [update_result_find_some c r hf]
    have hf2 : (db.map (fun p =>
        if p.id = i then
          { p with closing_line := Option.some c
                   result := r
                   profit_units := (grade_values row c r).1
                   clv := (grade_values row c r).2 }
        else p)).find? (fun p => p.id == i) =
        Option.some (if row.id = i then
          { row with closing_line := Option.some c
                     result := r
                     profit_units := (grade_values row c r).1
                     clv := (grade_values row c r).2 }
        else row) := by
      rw [List.find?_map]
      have hcomp : ((fun p : PickRow => p.id == i) ∘ (fun p =>
          if p.id = i then
            { p with closing_line := Option.some c
                     result := r
                     profit_units := (grade_values row c r).1
                     clv := (grade_values row c r).2 }
          else p)) = (fun p : PickRow => p.id == i) := by
        funext x
        by_cases hx : x.id = i <;> simp [hx]
      rw [hcomp, hf]
      rfl
    rw [if_pos (by simpa using hid)] at hf2
    rw [update_result_find_some c' r' hf2, update_result_find_some c' r' hf]
    rw [List.map_map]
    apply List.map_congr_left
    intro x _
    by_cases hx : x.id = i
    · simp only [Function.comp_apply, if_pos hx]
      rfl
    · simp only [Function.comp_apply, if_neg hx]

/-- C9 counterexample: grading pick 1 as a loss at closing −5 and then again
as a win at closing −3 leaves the stored result "win", closing line −3 and
clv +1 — the first grading's values are gone and no correction row was
added, so the second call was neither rejected nor recorded separately. -/
theorem regrade_silent_overwrite_cex :
    (update_result [sample_pick 1 100 (-4)] 1 (-5) "loss").map
      (fun p => (p.result, p.closing_line, p.clv)) =
      [("loss", Option.some (-5 : ℚ), (-1 : ℚ))] ∧
    (update_result (update_result [sample_pick 1 100 (-4)] 1 (-5) "loss") 1 (-3) "win").map
      (fun p => (p.result, p.closing_line, p.clv)) =
      [("win", Option.some (-3 : ℚ), (1 : ℚ))] ∧
    (update_result (update_result [sample_pick 1 100 (-4)] 1 (-5) "loss") 1 (-3) "win").length =
      ([sample_pick 1 100 (-4)] : List PickRow).length := by
  have e1 : pyRound 2 (-1 : ℚ) = -1 := pyRound_eq_self (-100) (by norm_num)
  have e2 : pyRound 2 (1 : ℚ) = 1 := pyRound_eq_self 100 (by norm_num)
  have hf1 : List.find? (fun p => p.id == 1) [sample_pick 1 100 (-4)] =
      Option.some (sample_pick 1 100 (-4)) := by
    simp [sample_pick, List.find?]
  have hstep : update_result [sample_pick 1 100 (-4)] 1 (-5) "loss" =
      [{ id := 1, timestamp := 100, sport := "nba", away_team := "LAL", home_team := "SAS", play_side := "HOME", bet_type := "spread", line_taken := -4, odds_taken := -110, closing_line := Option.some (-5), model_spread := -6.5, market_spread := -4.0, edge_points := 2.5, confidence := "✅ STRONG", units := 1, result := "loss", profit_units := -1, clv := -1, notes := "" }] := by
    rw [@update_result_find_some [sample_pick 1 100 (-4)] 1 (sample_pick 1 100 (-4)) (-5) "loss" hf1]
    simp only [List.map_cons, List.map_nil]
    simp [sample_pick, grade_values]
    norm_num [e1]
  refine ⟨?_, ?_, ?_⟩
  · rw [hstep]
    simp
  · rw [hstep]
    have hf2 : List.find? (fun p => p.id == 1)
        ([{ id := 1, timestamp := 100, sport := "nba", away_team := "LAL", home_team := "SAS", play_side := "HOME", bet_type := "spread", line_taken := -4, odds_taken := -110, closing_line := Option.some (-5), model_spread := -6.5, market_spread := -4.0, edge_points := 2.5, confidence := "✅ STRONG", units := 1, result := "loss", profit_units := -1, clv := -1, notes := "" }] : List PickRow) =
        Option.some ({ id := 1, timestamp := 100, sport := "nba", away_team := "LAL", home_team := "SAS", play_side := "HOME", bet_type := "spread", line_taken := -4, odds_taken := -110, closing_line := Option.some (-5), model_spread := -6.5, market_spread := -4.0, edge_points := 2.5, confidence := "✅ STRONG", units := 1, result := "loss", profit_units := -1, clv := -1, notes := "" } : PickRow) := by
      simp [List.find?]
    rw [@update_result_find_some _ 1 _ (-3) "win" hf2]
    simp [grade_values]
    norm_num [e2]
  · rw [update_result_length, update_result_length]

theorem filter_map_graded_perm (P : PickRow → Bool) (c : ℚ) (r : String)
    (pv : ℚ × ℚ) (i : ℕ) :
    ∀ (db : List PickRow) (row : PickRow),
      db.find? (fun p => p.id == i) = Option.some row →
      db.countP (fun p => p.id == i) = 1 →
      P row = false →
      P { row with closing_line := Option.some c, result := r, profit_units := pv.1, clv := pv.2 } = true →
      ((db.map (fun p => if p.id = i then
          { p with closing_line := Option.some c, result := r, profit_units := pv.1, clv := pv.2 }
        else p)).filter P).Perm
        ({ row with closing_line := Option.some c, result := r, profit_units := pv.1, clv := pv.2 }
          :: db.filter P) := by
  intro db
  induction db with
  | nil =>
    intro row hf _ _ _
    simp at hf
  | cons x xs ih =>
    intro row hf hcount hpend hmatch
    by_cases hx : (x.id == i) = true
    · have hxrow : x = row := by
        rw [List.find?_cons, hx] at hf
        simpa using hf
      subst hxrow
      have hcxs : xs.countP (fun p => p.id == i) = 0 := by
        rw [List.countP_cons] at hcount
        simp only [hx, if_pos] at hcount
        omega
      have hmapxs : xs.map (fun p => if p.id = i then
          { p with closing_line := Option.some c, result := r, profit_units := pv.1, clv := pv.2 }
        else p) = xs := by
        have hall := List.countP_eq_zero.mp hcxs
        calc xs.map (fun p => if p.id = i then
              { p with closing_line := Option.some c, result := r, profit_units := pv.1, clv := pv.2 }
            else p)
            = xs.map id := by
              apply List.map_congr_left
              intro a ha
              have := hall a ha
              simp only [beq_iff_eq] at this
              simp [this]
          _ = xs := List.map_id xs
      rw [List.map_cons, hmapxs]
      rw [if_pos (by simpa using hx)]
      rw [List.filter_cons, List.filter_cons, hmatch, hpend]
      simp
    · have hf' : xs.find? (fun p => p.id == i) = Option.some row := by
        have hxf : (x.id == i) = false := by simpa using hx
        rw [List.find?_cons, hxf] at hf
        simpa using hf
      have hcount' : xs.countP (fun p => p.id == i) = 1 := by
        rw [List.countP_cons] at hcount
        simp only [hx, if_neg, Bool.false_eq_true, not_false_eq_true] at hcount
        omega
      have hux : (if x.id = i then
          { x with closing_line := Option.some c, result := r, profit_units := pv.1, clv := pv.2 }
        else x) = x := by
        rw [if_neg (by simpa using hx)]
      rw [List.map_cons, hux]
      rw [List.filter_cons, List.filter_cons]
      by_cases hpx : P x = true
      · rw [hpx]
        simp only [if_pos]
        have ihp := ih row hf' hcount' hpend hmatch
        exact (ihp.cons x).trans (List.Perm.swap _ _ _)
      · simp only [Bool.not_eq_true] at hpx
        rw [hpx]
        simp only [Bool.false_eq_true, if_neg, not_false_eq_true]
        exact ih row hf' hcount' hpend hmatch

theorem isEmpty_false_of_length_ne_zero {α : Type} {l : List α} (h : l.length ≠ 0) :
    l.isEmpty = false := by
  cases l with
  | nil => simp at h
  | cons a t => rfl

set_option maxHeartbeats 1000000 in
/-- C8 amended: grading a pending pick that matches the report filter makes
a subsequent get_performance_report count it exactly once in the win/loss
tallies (hence win_rate) and exactly once in units_profit; in avg_clv it is
counted exactly once when its clv = closing − line_taken is non-zero and
omitted entirely when that clv is zero. -/
theorem graded_pick_counted_once (db : List PickRow) (i : ℕ) (row : PickRow)
    (c : ℚ) (r : String) (sport : Option String) (cutoff : Option ℕ)
    (hf : db.find? (fun p => p.id == i) = Option.some row)
    (hcount : db.countP (fun p => p.id == i) = 1)
    (hpending : row.result = "pending")
    (hr : r ≠ "pending")
    (hsport : (match sport with | Option.some s => row.sport == s | Option.none => true) = true)
    (hcutoff : (match cutoff with | Option.some t => decide (t < row.timestamp) | Option.none => true) = true) :
    ∃ rep, get_performance_report (update_result db i c r) sport cutoff = Option.some rep ∧
      rep.wins = ((db.filter (matches_filter sport cutoff)).countP (fun p => p.result == "win") + (if r = "win" then 1 else 0)) ∧
      rep.losses = ((db.filter (matches_filter sport cutoff)).countP (fun p => p.result == "loss") + (if r = "loss" then 1 else 0)) ∧
      rep.win_rate = (if ((db.filter (matches_filter sport cutoff)).countP (fun p => p.result == "win") + (if r = "win" then 1 else 0)) + ((db.filter (matches_filter sport cutoff)).countP (fun p => p.result == "loss") + (if r = "loss" then 1 else 0)) > 0 then
        pyRound 1 ((((db.filter (matches_filter sport cutoff)).countP (fun p => p.result == "win") + (if r = "win" then 1 else 0)) : ℚ) / ((((db.filter (matches_filter sport cutoff)).countP (fun p => p.result == "win") + (if r = "win" then 1 else 0)) : ℚ) + (((db.filter (matches_filter sport cutoff)).countP (fun p => p.result == "loss") + (if r = "loss" then 1 else 0)) : ℚ)) * 100) else 0) ∧
      rep.units_profit = pyRound 2
        (((db.filter (matches_filter sport cutoff)).map (fun p => p.profit_units)).sum +
          (grade_values row c r).1) ∧
      ((grade_values row c r).2 ≠ 0 →
        rep.avg_clv = pyRound 2 (((((db.filter (matches_filter sport cutoff)).filter (fun p => p.clv != 0)).map (fun p => p.clv)).sum + (grade_values row c r).2) /
          (((((db.filter (matches_filter sport cutoff)).filter (fun p => p.clv != 0)).map (fun p => p.clv)).length : ℚ) + 1))) ∧
      ((grade_values row c r).2 = 0 →
        rep.avg_clv = pyRound 2 (if (((db.filter (matches_filter sport cutoff)).filter (fun p => p.clv != 0)).map (fun p => p.clv)).isEmpty then 0 else (((db.filter (matches_filter sport cutoff)).filter (fun p => p.clv != 0)).map (fun p => p.clv)).sum / ((((db.filter (matches_filter sport cutoff)).filter (fun p => p.clv != 0)).map (fun p => p.clv)).length : ℚ))) := by
  have hpend : matches_filter sport cutoff row = false := by
    simp [matches_filter, hpending]
  have hmatch : matches_filter sport cutoff
      { row with closing_line := Option.some c, result := r, profit_units := (grade_values row c r).1, clv := (grade_values row c r).2 } = true := by
    show ((r != "pending") && _ && _) = true
    rcases sport with _ | s <;> rcases cutoff with _ | t <;>
      simp_all [matches_filter, bne_iff_ne]
  have hperm0 := filter_map_graded_perm (matches_filter sport cutoff) c r
    (grade_values row c r) i db row hf hcount hpend hmatch
  have hupd := update_result_find_some c r hf
  rw [← hupd] at hperm0
  have hperm : (((update_result db i c r).filter (matches_filter sport cutoff)).mergeSort
      (fun a b => decide (a.timestamp ≤ b.timestamp))).Perm
      ({ row with closing_line := Option.some c, result := r, profit_units := (grade_values row c r).1, clv := (grade_values row c r).2 } :: db.filter (matches_filter sport cutoff)) :=
    (List.mergeSort_perm _ _).trans hperm0
  have hne : (((update_result db i c r).filter (matches_filter sport cutoff)).mergeSort
      (fun a b => decide (a.timestamp ≤ b.timestamp))).isEmpty = false := by
    apply isEmpty_false_of_length_ne_zero
    rw [hperm.length_eq]
    simp
  have hW : (((update_result db i c r).filter (matches_filter sport cutoff)).mergeSort
      (fun a b => decide (a.timestamp ≤ b.timestamp))).countP (fun p => p.result == "win") = ((db.filter (matches_filter sport cutoff)).countP (fun p => p.result == "win") + (if r = "win" then 1 else 0)) := by
    rw [hperm.countP_eq, List.countP_cons]
    by_cases hw : r = "win" <;> simp [hw]
  have hL : (((update_result db i c r).filter (matches_filter sport cutoff)).mergeSort
      (fun a b => decide (a.timestamp ≤ b.timestamp))).countP (fun p => p.result == "loss") = ((db.filter (matches_filter sport cutoff)).countP (fun p => p.result == "loss") + (if r = "loss" then 1 else 0)) := by
    rw [hperm.countP_eq, List.countP_cons]
    by_cases hw : r = "loss" <;> simp [hw]
  have hclvperm := (hperm.filter (fun p => p.clv != 0)).map (fun p => p.clv)
  unfold get_performance_report
  dsimp only
  rw [hne, if_neg Bool.false_ne_true]
  refine ⟨_, rfl, ?_, ?_, ?_, ?_, ?_, ?_⟩
  · exact hW
  · exact hL
  · dsimp only
    rw [hW, hL]
    split_ifs <;> push_cast <;> ring
  · dsimp only
    have hsum := (hperm.map (fun p => p.profit_units)).sum_eq
    rw [List.map_cons, List.sum_cons] at hsum
    rw [hsum]
    congr 1
    exact add_comm _ _
  · intro hz
    dsimp only
    have hgq : (({ row with closing_line := Option.some c, result := r, profit_units := (grade_values row c r).1, clv := (grade_values row c r).2 } : PickRow).clv != 0) = true := by
      simp only [bne_iff_ne]
      exact hz
    have hfc : List.filter (fun p => p.clv != 0)
        (({ row with closing_line := Option.some c, result := r, profit_units := (grade_values row c r).1, clv := (grade_values row c r).2 } : PickRow) :: db.filter (matches_filter sport cutoff)) =
        ({ row with closing_line := Option.some c, result := r, profit_units := (grade_values row c r).1, clv := (grade_values row c r).2 } : PickRow) :: (db.filter (matches_filter sport cutoff)).filter (fun p => p.clv != 0) := by
      rw [List.filter_cons]
      simp [hgq]
    have hcv : ((((update_result db i c r).filter (matches_filter sport cutoff)).mergeSort
        (fun a b => decide (a.timestamp ≤ b.timestamp))).filter (fun p => p.clv != 0)).map
          (fun p => p.clv) |>.Perm ((grade_values row c r).2 :: (((db.filter (matches_filter sport cutoff)).filter (fun p => p.clv != 0)).map (fun p => p.clv))) := by
      have h2 := hclvperm
      rw [hfc, List.map_cons] at h2
      exact h2
    have hnec := isEmpty_false_of_length_ne_zero (l := (((((update_result db i c r).filter
        (matches_filter sport cutoff)).mergeSort (fun a b => decide (a.timestamp ≤ b.timestamp))).filter
        (fun p => p.clv != 0)).map (fun p => p.clv))) (by rw [hcv.length_eq]; simp)
    rw [hnec, if_neg Bool.false_ne_true]
    rw [hcv.sum_eq, hcv.length_eq, List.sum_cons, List.length_cons]
    congr 1
    push_cast
    ring
  · intro hz
    dsimp only
    have hgq : (({ row with closing_line := Option.some c, result := r, profit_units := (grade_values row c r).1, clv := (grade_values row c r).2 } : PickRow).clv != 0) = false := by
      simp only [bne_eq_false_iff_eq]
      exact hz
    have hfc : List.filter (fun p => p.clv != 0)
        (({ row with closing_line := Option.some c, result := r, profit_units := (grade_values row c r).1, clv := (grade_values row c r).2 } : PickRow) :: db.filter (matches_filter sport cutoff)) =
        (db.filter (matches_filter sport cutoff)).filter (fun p => p.clv != 0) := by
      rw [List.filter_cons]
      simp [hgq]
    have hcv : ((((update_result db i c r).filter (matches_filter sport cutoff)).mergeSort
        (fun a b => decide (a.timestamp ≤ b.timestamp))).filter (fun p => p.clv != 0)).map
          (fun p => p.clv) |>.Perm (((db.filter (matches_filter sport cutoff)).filter (fun p => p.clv != 0)).map (fun p => p.clv)) := by
      have h2 := hclvperm
      rw [hfc] at h2
      exact h2
    by_cases hlz : (((db.filter (matches_filter sport cutoff)).filter (fun p => p.clv != 0)).map (fun p => p.clv)).length = 0
    · have hold_nil : (((db.filter (matches_filter sport cutoff)).filter (fun p => p.clv != 0)).map (fun p => p.clv)) = [] := List.length_eq_zero.mp hlz
      have hcv_nil : ((((update_result db i c r).filter (matches_filter sport cutoff)).mergeSort
          (fun a b => decide (a.timestamp ≤ b.timestamp))).filter (fun p => p.clv != 0)).map
            (fun p => p.clv) = [] := by
        apply List.length_eq_zero.mp
        rw [hcv.length_eq, hlz]
      rw [hcv_nil, hold_nil]
    · have hnec := isEmpty_false_of_length_ne_zero (l := (((((update_result db i c r).filter
          (matches_filter sport cutoff)).mergeSort (fun a b => decide (a.timestamp ≤ b.timestamp))).filter
          (fun p => p.clv != 0)).map (fun p => p.clv))) (by rw [hcv.length_eq]; exact hlz)
      have hnec2 : (((db.filter (matches_filter sport cutoff)).filter (fun p => p.clv != 0)).map (fun p => p.clv)).isEmpty = false := isEmpty_false_of_length_ne_zero hlz
      rw [hnec, if_neg Bool.false_ne_true, hnec2, if_neg Bool.false_ne_true]
      rw [hcv.sum_eq, hcv.length_eq]

theorem graded_pick_counted_once_witness :
    List.find? (fun p => p.id == 1) [sample_pick 1 100 (-4)] = Option.some (sample_pick 1 100 (-4)) ∧
    List.countP (fun p => p.id == 1) [sample_pick 1 100 (-4)] = 1 ∧
    (sample_pick 1 100 (-4)).result = "pending" ∧
    ("win" : String) ≠ "pending" ∧
    (∃ rep, get_performance_report (update_result [sample_pick 1 100 (-4)] 1 (-5) "win") Option.none Option.none = Option.some rep ∧
      rep.wins = (([sample_pick 1 100 (-4)].filter (matches_filter Option.none Option.none)).countP (fun p => p.result == "win") + (if "win" = "win" then 1 else 0)) ∧
      rep.losses = (([sample_pick 1 100 (-4)].filter (matches_filter Option.none Option.none)).countP (fun p => p.result == "loss") + (if "win" = "loss" then 1 else 0)) ∧
      rep.win_rate = (if (([sample_pick 1 100 (-4)].filter (matches_filter Option.none Option.none)).countP (fun p => p.result == "win") + (if "win" = "win" then 1 else 0)) + (([sample_pick 1 100 (-4)].filter (matches_filter Option.none Option.none)).countP (fun p => p.result == "loss") + (if "win" = "loss" then 1 else 0)) > 0 then
        pyRound 1 (((([sample_pick 1 100 (-4)].filter (matches_filter Option.none Option.none)).countP (fun p => p.result == "win") + (if "win" = "win" then 1 else 0)) : ℚ) / (((([sample_pick 1 100 (-4)].filter (matches_filter Option.none Option.none)).countP (fun p => p.result == "win") + (if "win" = "win" then 1 else 0)) : ℚ) + ((([sample_pick 1 100 (-4)].filter (matches_filter Option.none Option.none)).countP (fun p => p.result == "loss") + (if "win" = "loss" then 1 else 0)) : ℚ)) * 100) else 0) ∧
      rep.units_profit = pyRound 2
        ((([sample_pick 1 100 (-4)].filter (matches_filter Option.none Option.none)).map (fun p => p.profit_units)).sum +
          (grade_values (sample_pick 1 100 (-4)) (-5) "win").1) ∧
      ((grade_values (sample_pick 1 100 (-4)) (-5) "win").2 ≠ 0 →
        rep.avg_clv = pyRound 2 ((((([sample_pick 1 100 (-4)].filter (matches_filter Option.none Option.none)).filter (fun p => p.clv != 0)).map (fun p => p.clv)).sum + (grade_values (sample_pick 1 100 (-4)) (-5) "win").2) /
          ((((([sample_pick 1 100 (-4)].filter (matches_filter Option.none Option.none)).filter (fun p => p.clv != 0)).map (fun p => p.clv)).length : ℚ) + 1))) ∧
      ((grade_values (sample_pick 1 100 (-4)) (-5) "win").2 = 0 →
        rep.avg_clv = pyRound 2 (if ((([sample_pick 1 100 (-4)].filter (matches_filter Option.none Option.none)).filter (fun p => p.clv != 0)).map (fun p => p.clv)).isEmpty then 0 else ((([sample_pick 1 100 (-4)].filter (matches_filter Option.none Option.none)).filter (fun p => p.clv != 0)).map (fun p => p.clv)).sum / (((([sample_pick 1 100 (-4)].filter (matches_filter Option.none Option.none)).filter (fun p => p.clv != 0)).map (fun p => p.clv)).length : ℚ)))) := by
  have hf : List.find? (fun p => p.id == 1) [sample_pick 1 100 (-4)] = Option.some (sample_pick 1 100 (-4)) := by
    simp [sample_pick, List.find?]
  have hcount : List.countP (fun p => p.id == 1) [sample_pick 1 100 (-4)] = 1 := by
    simp [sample_pick, List.countP_cons]
  refine ⟨hf, hcount, rfl, by decide, ?_⟩
  exact graded_pick_counted_once [sample_pick 1 100 (-4)] 1 (sample_pick 1 100 (-4)) (-5) "win" Option.none Option.none
    hf hcount rfl (by decide) rfl rfl

/-- C8 counterexample: with two graded picks of clv +2 and 0, the report's
avg_clv is 2 — the zero-clv pick is filtered out of the CLV average — while
counting every graded pick exactly once would give (2 + 0)/2 = 1. -/
theorem zero_clv_pick_not_counted_cex :
    (get_performance_report
        (update_result (update_result [sample_pick 1 100 (-4), sample_pick 2 200 (-7)] 1 (-2) "win")
          2 (-7) "loss")
        Option.none Option.none).map (fun rep => rep.avg_clv) = Option.some 2 ∧
    pyRound 2 (((2 : ℚ) + 0) / 2) = 1 ∧
    (2 : ℚ) ≠ 1 := by
  have e2 : pyRound 2 (2 : ℚ) = 2 := pyRound_eq_self 200 (by norm_num)
  have e0 : pyRound 2 (0 : ℚ) = 0 := pyRound_eq_self 0 (by norm_num)
  have em1 : pyRound 2 (-1 : ℚ) = -1 := pyRound_eq_self (-100) (by norm_num)
  have e3 : pyRound 2 (10/11 : ℚ) = 91/100 := by
    unfold pyRound roundHalfToEven
    rw [show (10/11 : ℚ) * 10 ^ 2 = 1000/11 by norm_num]
    rw [show ⌊(1000/11 : ℚ)⌋ = 90 by norm_num]
    rw [if_neg (by norm_num), round_eq]
    rw [show (1000/11 : ℚ) + 1/2 = 2011/22 by norm_num]
    rw [show ⌊(2011/22 : ℚ)⌋ = 91 by norm_num]
    norm_num
  have hf1 : List.find? (fun p => p.id == 1) [sample_pick 1 100 (-4), sample_pick 2 200 (-7)] =
      Option.some (sample_pick 1 100 (-4)) := by
    simp [sample_pick, List.find?]
  have hstep1 : update_result [sample_pick 1 100 (-4), sample_pick 2 200 (-7)] 1 (-2) "win" =
      [{ id := 1, timestamp := 100, sport := "nba", away_team := "LAL", home_team := "SAS", play_side := "HOME", bet_type := "spread", line_taken := -4, odds_taken := -110, closing_line := Option.some (-2), model_spread := -6.5, market_spread := -4.0, edge_points := 2.5, confidence := "✅ STRONG", units := 1, result := "win", profit_units := 91/100, clv := 2, notes := "" }, sample_pick 2 200 (-7)] := by
    rw [@update_result_find_some [sample_pick 1 100 (-4), sample_pick 2 200 (-7)] 1
      (sample_pick 1 100 (-4)) (-2) "win" hf1]
    simp [sample_pick, grade_values]
    norm_num [e3, e2]
  have hf2 : List.find? (fun p => p.id == 2)
      ([{ id := 1, timestamp := 100, sport := "nba", away_team := "LAL", home_team := "SAS", play_side := "HOME", bet_type := "spread", line_taken := -4, odds_taken := -110, closing_line := Option.some (-2), model_spread := -6.5, market_spread := -4.0, edge_points := 2.5, confidence := "✅ STRONG", units := 1, result := "win", profit_units := 91/100, clv := 2, notes := "" }, sample_pick 2 200 (-7)] : List PickRow) =
      Option.some (sample_pick 2 200 (-7)) := by
    simp [sample_pick, List.find?]
  have hstep2 : update_result ([{ id := 1, timestamp := 100, sport := "nba", away_team := "LAL", home_team := "SAS", play_side := "HOME", bet_type := "spread", line_taken := -4, odds_taken := -110, closing_line := Option.some (-2), model_spread := -6.5, market_spread := -4.0, edge_points := 2.5, confidence := "✅ STRONG", units := 1, result := "win", profit_units := 91/100, clv := 2, notes := "" }, sample_pick 2 200 (-7)] : List PickRow) 2 (-7) "loss" =
      [{ id := 1, timestamp := 100, sport := "nba", away_team := "LAL", home_team := "SAS", play_side := "HOME", bet_type := "spread", line_taken := -4, odds_taken := -110, closing_line := Option.some (-2), model_spread := -6.5, market_spread := -4.0, edge_points := 2.5, confidence := "✅ STRONG", units := 1, result := "win", profit_units := 91/100, clv := 2, notes := "" }, { id := 2, timestamp := 200, sport := "nba", away_team := "LAL", home_team := "SAS", play_side := "HOME", bet_type := "spread", line_taken := -7, odds_taken := -110, closing_line := Option.some (-7), model_spread := -6.5, market_spread := -4.0, edge_points := 2.5, confidence := "✅ STRONG", units := 1, result := "loss", profit_units := -1, clv := 0, notes := "" }] := by
    rw [@update_result_find_some _ 2 (sample_pick 2 200 (-7)) (-7) "loss" hf2]
    simp [sample_pick, grade_values]
    norm_num [em1, e0]
  rw [hstep1, hstep2]
  refine ⟨?_, ?_, by norm_num⟩
  · have hfilter : List.filter (matches_filter Option.none Option.none)
        ([{ id := 1, timestamp := 100, sport := "nba", away_team := "LAL", home_team := "SAS", play_side := "HOME", bet_type := "spread", line_taken := -4, odds_taken := -110, closing_line := Option.some (-2), model_spread := -6.5, market_spread := -4.0, edge_points := 2.5, confidence := "✅ STRONG", units := 1, result := "win", profit_units := 91/100, clv := 2, notes := "" }, { id := 2, timestamp := 200, sport := "nba", away_team := "LAL", home_team := "SAS", play_side := "HOME", bet_type := "spread", line_taken := -7, odds_taken := -110, closing_line := Option.some (-7), model_spread := -6.5, market_spread := -4.0, edge_points := 2.5, confidence := "✅ STRONG", units := 1, result := "loss", profit_units := -1, clv := 0, notes := "" }] : List PickRow) = [{ id := 1, timestamp := 100, sport := "nba", away_team := "LAL", home_team := "SAS", play_side := "HOME", bet_type := "spread", line_taken := -4, odds_taken := -110, closing_line := Option.some (-2), model_spread := -6.5, market_spread := -4.0, edge_points := 2.5, confidence := "✅ STRONG", units := 1, result := "win", profit_units := 91/100, clv := 2, notes := "" }, { id := 2, timestamp := 200, sport := "nba", away_team := "LAL", home_team := "SAS", play_side := "HOME", bet_type := "spread", line_taken := -7, odds_taken := -110, closing_line := Option.some (-7), model_spread := -6.5, market_spread := -4.0, edge_points := 2.5, confidence := "✅ STRONG", units := 1, result := "loss", profit_units := -1, clv := 0, notes := "" }] := by
      simp [matches_filter]
    have hsort : ([{ id := 1, timestamp := 100, sport := "nba", away_team := "LAL", home_team := "SAS", play_side := "HOME", bet_type := "spread", line_taken := -4, odds_taken := -110, closing_line := Option.some (-2), model_spread := -6.5, market_spread := -4.0, edge_points := 2.5, confidence := "✅ STRONG", units := 1, result := "win", profit_units := 91/100, clv := 2, notes := "" }, { id := 2, timestamp := 200, sport := "nba", away_team := "LAL", home_team := "SAS", play_side := "HOME", bet_type := "spread", line_taken := -7, odds_taken := -110, closing_line := Option.some (-7), model_spread := -6.5, market_spread := -4.0, edge_points := 2.5, confidence := "✅ STRONG", units := 1, result := "loss", profit_units := -1, clv := 0, notes := "" }] : List PickRow).mergeSort
        (fun a b => decide (a.timestamp ≤ b.timestamp)) = [{ id := 1, timestamp := 100, sport := "nba", away_team := "LAL", home_team := "SAS", play_side := "HOME", bet_type := "spread", line_taken := -4, odds_taken := -110, closing_line := Option.some (-2), model_spread := -6.5, market_spread := -4.0, edge_points := 2.5, confidence := "✅ STRONG", units := 1, result := "win", profit_units := 91/100, clv := 2, notes := "" }, { id := 2, timestamp := 200, sport := "nba", away_team := "LAL", home_team := "SAS", play_side := "HOME", bet_type := "spread", line_taken := -7, odds_taken := -110, closing_line := Option.some (-7), model_spread := -6.5, market_spread := -4.0, edge_points := 2.5, confidence := "✅ STRONG", units := 1, result := "loss", profit_units := -1, clv := 0, notes := "" }] := by
      simp [List.mergeSort]
    unfold get_performance_report
    dsimp only
    rw [hfilter, hsort]
    rw [show (([{ id := 1, timestamp := 100, sport := "nba", away_team := "LAL", home_team := "SAS", play_side := "HOME", bet_type := "spread", line_taken := -4, odds_taken := -110, closing_line := Option.some (-2), model_spread := -6.5, market_spread := -4.0, edge_points := 2.5, confidence := "✅ STRONG", units := 1, result := "win", profit_units := 91/100, clv := 2, notes := "" }, { id := 2, timestamp := 200, sport := "nba", away_team := "LAL", home_team := "SAS", play_side := "HOME", bet_type := "spread", line_taken := -7, odds_taken := -110, closing_line := Option.some (-7), model_spread := -6.5, market_spread := -4.0, edge_points := 2.5, confidence := "✅ STRONG", units := 1, result := "loss", profit_units := -1, clv := 0, notes := "" }] : List PickRow)).isEmpty = false from rfl]
    rw [if_neg Bool.false_ne_true]
    rw [Option.map_some']
    have hclv : List.filter (fun p => p.clv != 0) ([{ id := 1, timestamp := 100, sport := "nba", away_team := "LAL", home_team := "SAS", play_side := "HOME", bet_type := "spread", line_taken := -4, odds_taken := -110, closing_line := Option.some (-2), model_spread := -6.5, market_spread := -4.0, edge_points := 2.5, confidence := "✅ STRONG", units := 1, result := "win", profit_units := 91/100, clv := 2, notes := "" }, { id := 2, timestamp := 200, sport := "nba", away_team := "LAL", home_team := "SAS", play_side := "HOME", bet_type := "spread", line_taken := -7, odds_taken := -110, closing_line := Option.some (-7), model_spread := -6.5, market_spread := -4.0, edge_points := 2.5, confidence := "✅ STRONG", units := 1, result := "loss", profit_units := -1, clv := 0, notes := "" }] : List PickRow) =
        [{ id := 1, timestamp := 100, sport := "nba", away_team := "LAL", home_team := "SAS", play_side := "HOME", bet_type := "spread", line_taken := -4, odds_taken := -110, closing_line := Option.some (-2), model_spread := -6.5, market_spread := -4.0, edge_points := 2.5, confidence := "✅ STRONG", units := 1, result := "win", profit_units := 91/100, clv := 2, notes := "" }] := by
      simp
    dsimp only
    rw [hclv]
    simp only [List.map_cons, List.map_nil, List.isEmpty_cons, List.sum_cons, List.sum_nil,
      List.length_cons, List.length_nil]
    norm_num [e2]
  · rw [show ((2 : ℚ) + 0) / 2 = 1 by norm_num]
    exact pyRound_eq_self 100 (by norm_num)
